import Mathlib

/-!
Verification of the CORDIC demonstration firmware (cordic_functions.c, main.c).

The C program is shallowly embedded: IEEE floating-point scalars are modelled
as exact rationals (plus an explicit NaN value, since the behaviour of the
range validator on NaN is one of the properties under study), 32-bit machine
integers as `Int` with explicit truncation or saturation where a C cast can
overflow, console input as a list of scanf tokens, console output and
accelerator invocations as an event trace, and the file-scope mutable
variables of cordic_functions.c as an explicit state record threaded through
each handler.  The hardware accelerator primitives (Cy_CORDIC_*) and the
math-library reference functions live outside this repository; handlers are
parametrised over them, and a separate spec-modelled instance is supplied for
the claims that need concrete collaborator values.
-/

/-- Model of a C float/double scalar: an exact rational, or NaN.  Rounding of
the binary formats is not modelled; every claim under study is either exact
or carries a tolerance far above float rounding error. -/
inductive F where
  | fin : ℚ → F
  | nan : F
deriving DecidableEq, Repr

/-- Numeric value of a modelled float, reading NaN as 0 (used only to state
bounds about values that are provably finite). -/
def F.toQ : F → ℚ
  | F.fin q => q
  | F.nan => 0

/-- C multiplication on modelled floats: NaN propagates. -/
def fmul : F → F → F
  | F.fin a, F.fin b => F.fin (a * b)
  | _, _ => F.nan

/-- C comparison a > b on modelled floats: any comparison with NaN is false. -/
def fgt : F → F → Bool
  | F.fin a, F.fin b => decide (a > b)
  | _, _ => false

/-- C comparison a < b on modelled floats: any comparison with NaN is false. -/
def flt : F → F → Bool
  | F.fin a, F.fin b => decide (a < b)
  | _, _ => false

/-- C comparison a != b on modelled floats: NaN is unequal to everything. -/
def fne : F → F → Bool
  | F.fin a, F.fin b => decide (a ≠ b)
  | _, _ => true

/-- C comparison a == b on modelled floats: false when either side is NaN. -/
def feq : F → F → Bool
  | F.fin a, F.fin b => decide (a = b)
  | _, _ => false

/-- C truncation toward zero of a real (rational) value, as performed by a
cast from a floating type to an integer type. -/
def truncQ (q : ℚ) : ℤ :=
  if q < 0 then ⌈q⌉ else ⌊q⌋

/-- Conversion of a modelled float to a 32-bit signed integer: truncation
toward zero, saturating at the type bounds (the Arm targets of this firmware
saturate out-of-range float-to-int conversions; NaN converts to 0). -/
def i32ofF : F → ℤ
  | F.nan => 0
  | F.fin q =>
      let t := truncQ q
      if t < -(2 ^ 31) then -(2 ^ 31)
      else if t > 2 ^ 31 - 1 then 2 ^ 31 - 1
      else t

/-- The rational value of the double literal 3.141592654 used by the source
for every angle conversion (macros DEG_RAD_MULTIPLIER, RAD_DEG_MULTIPLIER,
Q31_TO_DEG_FLOAT). -/
def piC : ℚ := 3141592654 / 1000000000

/-- Macro Q31_MULTIPLIER = 2147483648L, i.e. 1<<31. -/
def Q31_MULTIPLIER : ℤ := 2147483648

/-- Macro Q30_MULTIPLIER = 1073741824L, i.e. 1<<30. -/
def Q30_MULTIPLIER : ℤ := 1073741824

/-- Macro Q23_MULTIPLIER = 8388607L (the source comment reads 1<<23, but the
constant written in the code is 2^23 - 1). -/
def Q23_MULTIPLIER : ℤ := 8388607

/-- Macro Q11_MULTIPLIER = 2048L, i.e. 1<<11. -/
def Q11_MULTIPLIER : ℤ := 2048

/-- Macro Q8_MULTIPLIER = 256L, i.e. 1<<8. -/
def Q8_MULTIPLIER : ℤ := 256

/-- Macro CORDIC_CIRCULAR_GAIN = 1.646760258121. -/
def CORDIC_CIRCULAR_GAIN : ℚ := 1646760258121 / 1000000000000

/-- Macro FLOAT_DEG_TO_RAD(x) = x * (3.141592654/180). -/
def FLOAT_DEG_TO_RAD (x : F) : F := fmul x (F.fin (piC / 180))

/-- Macro FLOAT_RAD_TO_DEG(x) = x * (180/3.141592654). -/
def FLOAT_RAD_TO_DEG (x : F) : F := fmul x (F.fin (180 / piC))

/-- Macro FLOAT_DEG_TO_RAD_Q31(x) = (CY_CORDIC_Q31_t)(x * (Q31_MULTIPLIER/180)).
Q31_MULTIPLIER/180 is C long integer division: 2147483648/180 = 11930464. -/
def FLOAT_DEG_TO_RAD_Q31 (x : F) : ℤ := i32ofF (fmul x (F.fin 11930464))

/-- Macro FLOAT_TO_Q31(x) = (CY_CORDIC_Q31_t)(x * Q31_MULTIPLIER). -/
def FLOAT_TO_Q31 (x : F) : ℤ := i32ofF (fmul x (F.fin (Q31_MULTIPLIER : ℚ)))

/-- Macro FLOAT_TO_Q8_23(x) = (CY_CORDIC_8Q23_t)(x * Q8_MULTIPLIER).  Note the
multiplier the source uses here is Q8_MULTIPLIER = 256, not 2^23. -/
def FLOAT_TO_Q8_23 (x : F) : ℤ := i32ofF (fmul x (F.fin (Q8_MULTIPLIER : ℚ)))

/-- Macro Q31_TO_FLOAT(x) = (float32_t)(x) / Q31_MULTIPLIER. -/
def Q31_TO_FLOAT (x : ℤ) : F := F.fin ((x : ℚ) / (Q31_MULTIPLIER : ℚ))

/-- Macro Q1_30_TO_FLOAT(x) = (float32_t)(x) / Q30_MULTIPLIER. -/
def Q1_30_TO_FLOAT (x : ℤ) : F := F.fin ((x : ℚ) / (Q30_MULTIPLIER : ℚ))

/-- Macro Q23_TO_FLOAT(x) = (float32_t)(x) / Q23_MULTIPLIER. -/
def Q23_TO_FLOAT (x : ℤ) : F := F.fin ((x : ℚ) / (Q23_MULTIPLIER : ℚ))

/-- Macro Q20_11_TO_FLOAT(x) = (float32_t)(x) / Q11_MULTIPLIER. -/
def Q20_11_TO_FLOAT (x : ℤ) : F := F.fin ((x : ℚ) / (Q11_MULTIPLIER : ℚ))

/-- Macro Q31_TO_DEG_FLOAT(x) = (float32_t)(x) * (3.141592654 / Q31_MULTIPLIER). -/
def Q31_TO_DEG_FLOAT (x : ℤ) : F := F.fin ((x : ℚ) * (piC / (Q31_MULTIPLIER : ℚ)))

/-- Macro ATAN_TANH_IN_SCALING = 127.99. -/
def ATAN_TANH_IN_SCALING : ℚ := 12799 / 100

/-- Return type cy_en_cordic_status_t, restricted to the two values the
program uses. -/
inductive CyStatus where
  | success
  | badParam
deriving DecidableEq, Repr

/-- One console message printed by the program.  Fixed text is identified by
a constructor (with the distinguishing literal text recorded in the
constructor name or payload); printf calls that interpolate a computed float
carry that value. -/
inductive Msg where
  | menu
  | wrongOption
  | notInRange
  | enteredZero
  | selected : String → Msg
  | promptFor : String → Msg
  | resultOut : String → F → Msg
  | parkCordicOut : F → F → Msg
  | parkMathOut : F → F → Msg
  | blankLines
deriving DecidableEq, Repr

/-- One invocation of a CORDIC hardware-accelerator primitive, with the
fixed-point operands the program passes to it. -/
inductive Hw where
  | parkNB : ℤ → ℤ → ℤ → Hw
  | sinQ : ℤ → Hw
  | cosQ : ℤ → Hw
  | tanQ : ℤ → Hw
  | arcTanQ : ℤ → ℤ → Hw
  | sinhQ : ℤ → Hw
  | coshQ : ℤ → Hw
  | tanhQ : ℤ → Hw
  | arcTanhQ : ℤ → ℤ → Hw
  | sqrtQ : ℤ → Hw
deriving DecidableEq, Repr

/-- An observable event: a console print or a hardware-accelerator call. -/
inductive Event where
  | out : Msg → Event
  | hw : Hw → Event
deriving DecidableEq, Repr

/-- The file-scope mutable variables of cordic_functions.c. -/
structure CState where
  read_string : String
  read_status : ℤ
  cordic_function : ℤ
  angle_deg : F
  ialpha : F
  ibeta : F
  angle_rad : F
  numerator : F
  denominator : F
  result_doub : F
  result_q31 : ℤ
  result_1q30 : ℤ
  result_20q11 : ℤ
  angle_q31 : ℤ
  numerator_8q23 : ℤ
  denominator_8q23 : ℤ
deriving DecidableEq, Repr

/-- The initial values of the file-scope variables (all zero, the selector at
Ifx_CORDIC_PARK_TRANS = 0, the read buffer empty). -/
def initState : CState :=
  { read_string := ""
    read_status := 0
    cordic_function := 0
    angle_deg := F.fin 0
    ialpha := F.fin 0
    ibeta := F.fin 0
    angle_rad := F.fin 0
    numerator := F.fin 0
    denominator := F.fin 0
    result_doub := F.fin 0
    result_q31 := 0
    result_1q30 := 0
    result_20q11 := 0
    angle_q31 := 0
    numerator_8q23 := 0
    denominator_8q23 := 0 }

/-- Function check_range of cordic_functions.c: returns CY_CORDIC_BAD_PARAM
and prints the range diagnostic when low_limit > value or high_limit < value,
CY_CORDIC_SUCCESS otherwise. -/
def check_range (low_limit high_limit value : F) : CyStatus × List Event :=
  if fgt low_limit value || flt high_limit value then
    (CyStatus.badParam, [Event.out Msg.notInRange])
  else
    (CyStatus.success, [])

/-- Numeric value of a decimal digit character. -/
def digitVal (c : Char) : ℕ := c.toNat - 48

/-- Leading-whitespace skip performed by atoi and atof (scanf tokens never
contain whitespace, but the C functions perform it). -/
def skipSpaces : List Char → List Char
  | [] => []
  | c :: cs => if c.isWhitespace then skipSpaces cs else c :: cs

/-- Accumulate a run of leading decimal digits into an integer, stopping at
the first non-digit (overflow of the C int is not modelled; the menu tokens
of interest are short). -/
def scanDigitsInt : List Char → ℤ → ℤ
  | [], acc => acc
  | c :: cs, acc =>
      if c.isDigit then scanDigitsInt cs (10 * acc + (digitVal c : ℤ)) else acc

/-- Modelled from the spec: the C library function atoi used on the menu
selector token (skip whitespace, optional sign, then a run of decimal
digits; no digits parse as 0). -/
def atoi (s : String) : ℤ :=
  match skipSpaces s.data with
  | [] => 0
  | c :: cs =>
      if c = '-' then -(scanDigitsInt cs 0)
      else if c = '+' then scanDigitsInt cs 0
      else scanDigitsInt (c :: cs) 0

/-- Accumulate a run of leading decimal digits into a rational integer part,
returning the unconsumed remainder of the token. -/
def scanIntPart : List Char → ℚ → ℚ × List Char
  | [], acc => (acc, [])
  | c :: cs, acc =>
      if c.isDigit then scanIntPart cs (10 * acc + (digitVal c : ℚ)) else (acc, c :: cs)

/-- Accumulate a run of decimal digits after the point, each weighted by the
next smaller power of ten. -/
def scanFracPart : List Char → ℚ → ℚ → ℚ
  | [], _, acc => acc
  | c :: cs, p, acc =>
      if c.isDigit then scanFracPart cs (p / 10) (acc + p * (digitVal c : ℚ)) else acc

/-- Magnitude of a decimal token: integer part and optional fraction part. -/
def atofMag (cs : List Char) : ℚ :=
  let (ip, rest) := scanIntPart cs 0
  match rest with
  | '.' :: cs2 => ip + scanFracPart cs2 (1 / 10) 0
  | _ => ip

/-- Modelled from the spec: the C library function atof used on operand
tokens, for the decimal inputs this program receives (optional sign, digits,
optional point and fraction digits; the token nan parses to NaN; a token
with no parseable number yields 0). -/
def atof (s : String) : F :=
  match skipSpaces s.data with
  | 'n' :: 'a' :: 'n' :: _ => F.nan
  | '-' :: cs => F.fin (-(atofMag cs))
  | '+' :: cs => F.fin (atofMag cs)
  | cs => F.fin (atofMag cs)

/-- The external collaborators of cordic_functions.c: the CORDIC accelerator
primitives (Cy_CORDIC_*), the CMSIS software park transform (arm_park_q31)
and the math-library reference functions.  None of them are code of this
repository; handlers are parametrised over them. -/
structure Collab where
  hwSin : ℤ → ℤ
  hwCos : ℤ → ℤ
  hwTan : ℤ → ℤ
  hwArcTan : ℤ → ℤ → ℤ
  hwSinh : ℤ → ℤ
  hwCosh : ℤ → ℤ
  hwTanh : ℤ → ℤ
  hwArcTanh : ℤ → ℤ → ℤ
  hwSqrt : ℤ → ℤ
  hwPark : ℤ → ℤ → ℤ → ℤ × ℤ
  armPark : ℤ → ℤ → ℤ → ℤ → ℤ × ℤ
  sinF : F → F
  cosF : F → F
  tanF : F → F
  sinhF : F → F
  coshF : F → F
  tanhF : F → F
  atan2F : F → F → F
  atanhF : F → F
  sqrtF : F → F

/-- One scanf("%120s", read_string) call: consume the next token if any,
recording it and the scanf return value in the file-scope variables; an
exhausted input stream models end-of-file (scanf returns EOF = -1). -/
def scanfTok (st : CState) (input : List String) :
    CState × Option String × List String :=
  match input with
  | [] => ({ st with read_status := -1 }, none, [])
  | t :: rest => ({ st with read_status := 1, read_string := t }, some t, rest)

/-- Function sine of cordic_functions.c: read an angle token, range-check it
against [-90, 90], and on success run the accelerator sine and the
math-library sine and print both results. -/
def sine (c : Collab) (st : CState) (input : List String) :
    CState × List Event × List String :=
  let ev0 := [Event.out (Msg.selected "sine"),
              Event.out (Msg.promptFor "angle in degree between -90 and 90")]
  let (st1, tokOpt, rest) := scanfTok st input
  match tokOpt with
  | none => (st1, ev0, rest)
  | some tok =>
    let st2 := { st1 with angle_deg := atof tok }
    let (chk, ev1) := check_range (F.fin (-90)) (F.fin 90) st2.angle_deg
    if chk = CyStatus.success then
      let st3 := { st2 with angle_rad := FLOAT_DEG_TO_RAD st2.angle_deg,
                            angle_q31 := FLOAT_DEG_TO_RAD_Q31 st2.angle_deg }
      let r := c.hwSin st3.angle_q31
      let v1 := Q31_TO_FLOAT r
      let v2 := c.sinF st3.angle_rad
      let st4 := { st3 with result_q31 := r, result_doub := v2 }
      (st4,
       ev0 ++ ev1 ++ [Event.hw (Hw.sinQ st3.angle_q31),
                      Event.out (Msg.resultOut "sine cordic" v1),
                      Event.out (Msg.resultOut "sine math" v2)],
       rest)
    else (st2, ev0 ++ ev1, rest)

/-- Function cosine of cordic_functions.c: like sine with the accelerator
and math-library cosine. -/
def cosine (c : Collab) (st : CState) (input : List String) :
    CState × List Event × List String :=
  let ev0 := [Event.out (Msg.selected "cosine"),
              Event.out (Msg.promptFor "angle in degree between -90 and 90")]
  let (st1, tokOpt, rest) := scanfTok st input
  match tokOpt with
  | none => (st1, ev0, rest)
  | some tok =>
    let st2 := { st1 with angle_deg := atof tok }
    let (chk, ev1) := check_range (F.fin (-90)) (F.fin 90) st2.angle_deg
    if chk = CyStatus.success then
      let st3 := { st2 with angle_rad := FLOAT_DEG_TO_RAD st2.angle_deg,
                            angle_q31 := FLOAT_DEG_TO_RAD_Q31 st2.angle_deg }
      let r := c.hwCos st3.angle_q31
      let v1 := Q31_TO_FLOAT r
      let v2 := c.cosF st3.angle_rad
      let st4 := { st3 with result_q31 := r, result_doub := v2 }
      (st4,
       ev0 ++ ev1 ++ [Event.hw (Hw.cosQ st3.angle_q31),
                      Event.out (Msg.resultOut "cosine cordic" v1),
                      Event.out (Msg.resultOut "cosine math" v2)],
       rest)
    else (st2, ev0 ++ ev1, rest)

/-- Function tangent of cordic_functions.c: range [-89, 89], 20Q11 result
format. -/
def tangent (c : Collab) (st : CState) (input : List String) :
    CState × List Event × List String :=
  let ev0 := [Event.out (Msg.selected "tangent"),
              Event.out (Msg.promptFor "angle in degree between -89 and 89")]
  let (st1, tokOpt, rest) := scanfTok st input
  match tokOpt with
  | none => (st1, ev0, rest)
  | some tok =>
    let st2 := { st1 with angle_deg := atof tok }
    let (chk, ev1) := check_range (F.fin (-89)) (F.fin 89) st2.angle_deg
    if chk = CyStatus.success then
      let st3 := { st2 with angle_rad := FLOAT_DEG_TO_RAD st2.angle_deg,
                            angle_q31 := FLOAT_DEG_TO_RAD_Q31 st2.angle_deg }
      let r := c.hwTan st3.angle_q31
      let v1 := Q20_11_TO_FLOAT r
      let v2 := c.tanF st3.angle_rad
      let st4 := { st3 with result_20q11 := r, result_doub := v2 }
      (st4,
       ev0 ++ ev1 ++ [Event.hw (Hw.tanQ st3.angle_q31),
                      Event.out (Msg.resultOut "tangent cordic" v1),
                      Event.out (Msg.resultOut "tangent math" v2)],
       rest)
    else (st2, ev0 ++ ev1, rest)

/-- Function arc_tangent of cordic_functions.c: read the numerator token,
range-check it against [-57, 57], scale numerator and denominator by
ATAN_TANH_IN_SCALING, convert both to 8Q23, run the accelerator arc tangent
(denominator first, as the source passes it) and the math-library atan2 on
the scaled operands, converting both results from radian to degree. -/
def arc_tangent (c : Collab) (st : CState) (input : List String) :
    CState × List Event × List String :=
  let ev0 := [Event.out (Msg.selected "arc tangent"),
              Event.out (Msg.promptFor "value between -57 and 57")]
  let (st1, tokOpt, rest) := scanfTok st input
  match tokOpt with
  | none => (st1, ev0, rest)
  | some tok =>
    let st2 := { st1 with numerator := atof tok }
    let (chk, ev1) := check_range (F.fin (-57)) (F.fin 57) st2.numerator
    if chk = CyStatus.success then
      let st3 := { st2 with
                    numerator := fmul st2.numerator (F.fin ATAN_TANH_IN_SCALING),
                    denominator := F.fin ATAN_TANH_IN_SCALING }
      let st4 := { st3 with
                    numerator_8q23 := FLOAT_TO_Q8_23 st3.numerator,
                    denominator_8q23 := FLOAT_TO_Q8_23 st3.denominator }
      let r := c.hwArcTan st4.denominator_8q23 st4.numerator_8q23
      let v1 := FLOAT_RAD_TO_DEG (Q31_TO_DEG_FLOAT r)
      let v2 := FLOAT_RAD_TO_DEG (c.atan2F st4.numerator st4.denominator)
      let st5 := { st4 with result_q31 := r, result_doub := v2 }
      (st5,
       ev0 ++ ev1 ++ [Event.hw (Hw.arcTanQ st4.denominator_8q23 st4.numerator_8q23),
                      Event.out (Msg.resultOut "arctan cordic degree" v1),
                      Event.out (Msg.resultOut "arctan math degree" v2)],
       rest)
    else (st2, ev0 ++ ev1, rest)

/-- Function hyperbolic_sine of cordic_functions.c: range [-60, 60], 1Q30
result format. -/
def hyperbolic_sine (c : Collab) (st : CState) (input : List String) :
    CState × List Event × List String :=
  let ev0 := [Event.out (Msg.selected "hyperbolic sine"),
              Event.out (Msg.promptFor "angle in degree between -60 and 60")]
  let (st1, tokOpt, rest) := scanfTok st input
  match tokOpt with
  | none => (st1, ev0, rest)
  | some tok =>
    let st2 := { st1 with angle_deg := atof tok }
    let (chk, ev1) := check_range (F.fin (-60)) (F.fin 60) st2.angle_deg
    if chk = CyStatus.success then
      let st3 := { st2 with angle_rad := FLOAT_DEG_TO_RAD st2.angle_deg,
                            angle_q31 := FLOAT_DEG_TO_RAD_Q31 st2.angle_deg }
      let r := c.hwSinh st3.angle_q31
      let v1 := Q1_30_TO_FLOAT r
      let v2 := c.sinhF st3.angle_rad
      let st4 := { st3 with result_1q30 := r, result_doub := v2 }
      (st4,
       ev0 ++ ev1 ++ [Event.hw (Hw.sinhQ st3.angle_q31),
                      Event.out (Msg.resultOut "sinh cordic" v1),
                      Event.out (Msg.resultOut "sinh math" v2)],
       rest)
    else (st2, ev0 ++ ev1, rest)

/-- Function hyperbolic_cosine of cordic_functions.c: range [-60, 60], 1Q30
result format. -/
def hyperbolic_cosine (c : Collab) (st : CState) (input : List String) :
    CState × List Event × List String :=
  let ev0 := [Event.out (Msg.selected "hyperbolic cosine"),
              Event.out (Msg.promptFor "angle in degree between -60 and 60")]
  let (st1, tokOpt, rest) := scanfTok st input
  match tokOpt with
  | none => (st1, ev0, rest)
  | some tok =>
    let st2 := { st1 with angle_deg := atof tok }
    let (chk, ev1) := check_range (F.fin (-60)) (F.fin 60) st2.angle_deg
    if chk = CyStatus.success then
      let st3 := { st2 with angle_rad := FLOAT_DEG_TO_RAD st2.angle_deg,
                            angle_q31 := FLOAT_DEG_TO_RAD_Q31 st2.angle_deg }
      let r := c.hwCosh st3.angle_q31
      let v1 := Q1_30_TO_FLOAT r
      let v2 := c.coshF st3.angle_rad
      let st4 := { st3 with result_1q30 := r, result_doub := v2 }
      (st4,
       ev0 ++ ev1 ++ [Event.hw (Hw.coshQ st3.angle_q31),
                      Event.out (Msg.resultOut "cosh cordic" v1),
                      Event.out (Msg.resultOut "cosh math" v2)],
       rest)
    else (st2, ev0 ++ ev1, rest)

/-- Function hyperbolic_tangent of cordic_functions.c: range [-60, 60],
20Q11 result format. -/
def hyperbolic_tangent (c : Collab) (st : CState) (input : List String) :
    CState × List Event × List String :=
  let ev0 := [Event.out (Msg.selected "hyperbolic tangent"),
              Event.out (Msg.promptFor "angle in degree between -60 and 60")]
  let (st1, tokOpt, rest) := scanfTok st input
  match tokOpt with
  | none => (st1, ev0, rest)
  | some tok =>
    let st2 := { st1 with angle_deg := atof tok }
    let (chk, ev1) := check_range (F.fin (-60)) (F.fin 60) st2.angle_deg
    if chk = CyStatus.success then
      let st3 := { st2 with angle_rad := FLOAT_DEG_TO_RAD st2.angle_deg,
                            angle_q31 := FLOAT_DEG_TO_RAD_Q31 st2.angle_deg }
      let r := c.hwTanh st3.angle_q31
      let v1 := Q20_11_TO_FLOAT r
      let v2 := c.tanhF st3.angle_rad
      let st4 := { st3 with result_20q11 := r, result_doub := v2 }
      (st4,
       ev0 ++ ev1 ++ [Event.hw (Hw.tanhQ st3.angle_q31),
                      Event.out (Msg.resultOut "tanh cordic" v1),
                      Event.out (Msg.resultOut "tanh math" v2)],
       rest)
    else (st2, ev0 ++ ev1, rest)

/-- Function hyperbolic_arc_tangent of cordic_functions.c: the read value is
a local variable; range [-0.8, 0.8]; numerator and denominator are scaled by
ATAN_TANH_IN_SCALING and converted to 8Q23; the math-library reference is
atanh on the unscaled read value; both results are converted radian to
degree. -/
def hyperbolic_arc_tangent (c : Collab) (st : CState) (input : List String) :
    CState × List Event × List String :=
  let ev0 := [Event.out (Msg.selected "hyperbolic arc tangent"),
              Event.out (Msg.promptFor "value between -0.8 and 0.8")]
  let (st1, tokOpt, rest) := scanfTok st input
  match tokOpt with
  | none => (st1, ev0, rest)
  | some tok =>
    let read_value := atof tok
    let (chk, ev1) := check_range (F.fin (-(8 / 10))) (F.fin (8 / 10)) read_value
    if chk = CyStatus.success then
      let st2 := { st1 with
                    numerator := fmul read_value (F.fin ATAN_TANH_IN_SCALING),
                    denominator := F.fin ATAN_TANH_IN_SCALING }
      let st3 := { st2 with
                    numerator_8q23 := FLOAT_TO_Q8_23 st2.numerator,
                    denominator_8q23 := FLOAT_TO_Q8_23 st2.denominator }
      let r := c.hwArcTanh st3.denominator_8q23 st3.numerator_8q23
      let v1 := FLOAT_RAD_TO_DEG (Q31_TO_DEG_FLOAT r)
      let v2 := FLOAT_RAD_TO_DEG (c.atanhF read_value)
      let st4 := { st3 with result_q31 := r, result_doub := v2 }
      (st4,
       ev0 ++ ev1 ++ [Event.hw (Hw.arcTanhQ st3.denominator_8q23 st3.numerator_8q23),
                      Event.out (Msg.resultOut "arctanh cordic degree" v1),
                      Event.out (Msg.resultOut "arctanh math degree" v2)],
       rest)
    else (st1, ev0 ++ ev1, rest)

/-- Function square_root of cordic_functions.c: the read number and the
fixed-point scratch are local variables; the number passes when
check_range(0, 1, number) succeeds and number != 0; an exact zero gets its
own dedicated message after the main branch. -/
def square_root (c : Collab) (st : CState) (input : List String) :
    CState × List Event × List String :=
  let ev0 := [Event.out (Msg.selected "square root"),
              Event.out (Msg.promptFor "value above 0 and below 1")]
  let (st1, tokOpt, rest) := scanfTok st input
  match tokOpt with
  | none => (st1, ev0, rest)
  | some tok =>
    let number := atof tok
    let (chk, ev1) := check_range (F.fin 0) (F.fin 1) number
    let (st2, ev2) :=
      if chk = CyStatus.success ∧ fne (F.fin 0) number then
        let number_q31 := FLOAT_TO_Q31 number
        let sq := c.hwSqrt number_q31
        let v1 := Q31_TO_FLOAT sq
        let v2 := c.sqrtF number
        ({ st1 with result_doub := v2 },
         [Event.hw (Hw.sqrtQ number_q31),
          Event.out (Msg.resultOut "sqrt cordic" v1),
          Event.out (Msg.resultOut "sqrt math" v2)])
      else (st1, [])
    if feq (F.fin 0) number then
      (st2, ev0 ++ ev1 ++ ev2 ++ [Event.out Msg.enteredZero], rest)
    else
      (st2, ev0 ++ ev1 ++ ev2, rest)

/-- Function park_transform of cordic_functions.c: read and range-check the
angle, alpha and beta in turn; on success convert the angle to radians and
Q31, alpha and beta to Q31, run the accelerator park transform, convert its
two Q23 results to float, multiply each by 1/CORDIC_CIRCULAR_GAIN and print
them; then compute the math-library reference with arm_park_q31 on the Q31
sine and cosine of the angle and print the Q31-converted results. -/
def park_transform (c : Collab) (st : CState) (input : List String) :
    CState × List Event × List String :=
  let ev0 := [Event.out (Msg.selected "park transform"),
              Event.out (Msg.promptFor "angle in degree between -90 and 90")]
  let (st1, tok1Opt, rest1) := scanfTok st input
  match tok1Opt with
  | none => (st1, ev0, rest1)
  | some tok1 =>
    let st2 := { st1 with angle_deg := atof tok1 }
    let (chk1, ev1) := check_range (F.fin (-90)) (F.fin 90) st2.angle_deg
    if chk1 = CyStatus.success then
      let evA := [Event.out (Msg.promptFor "i alpha between -1 and 1")]
      let (st3, tok2Opt, rest2) := scanfTok st2 rest1
      match tok2Opt with
      | none => (st3, ev0 ++ ev1 ++ evA, rest2)
      | some tok2 =>
        let st4 := { st3 with ialpha := atof tok2 }
        let (chk2, ev2) := check_range (F.fin (-1)) (F.fin 1) st4.ialpha
        if chk2 = CyStatus.success then
          let evB := [Event.out (Msg.promptFor "i beta between -1 and 1")]
          let (st5, tok3Opt, rest3) := scanfTok st4 rest2
          match tok3Opt with
          | none => (st5, ev0 ++ ev1 ++ evA ++ ev2 ++ evB, rest3)
          | some tok3 =>
            let st6 := { st5 with ibeta := atof tok3 }
            let (chk3, ev3) := check_range (F.fin (-1)) (F.fin 1) st6.ibeta
            if chk3 = CyStatus.success then
              let st7 := { st6 with
                            angle_rad := FLOAT_DEG_TO_RAD st6.angle_deg,
                            angle_q31 := FLOAT_DEG_TO_RAD_Q31 st6.angle_deg }
              let i_alpha_q31 := FLOAT_TO_Q31 st7.ialpha
              let i_beta_q31 := FLOAT_TO_Q31 st7.ibeta
              let parkRes := c.hwPark st7.angle_q31 i_alpha_q31 i_beta_q31
              let result_p_id := fmul (Q23_TO_FLOAT parkRes.1)
                                      (F.fin (1 / CORDIC_CIRCULAR_GAIN))
              let result_p_iq := fmul (Q23_TO_FLOAT parkRes.2)
                                      (F.fin (1 / CORDIC_CIRCULAR_GAIN))
              let sin_of_angle := c.sinF st7.angle_rad
              let cos_of_angle := c.cosF st7.angle_rad
              let sin_q31 := FLOAT_TO_Q31 sin_of_angle
              let cos_q31 := FLOAT_TO_Q31 cos_of_angle
              let armRes := c.armPark i_alpha_q31 i_beta_q31 sin_q31 cos_q31
              let m_id := Q31_TO_FLOAT armRes.1
              let m_iq := Q31_TO_FLOAT armRes.2
              (st7,
               ev0 ++ ev1 ++ evA ++ ev2 ++ evB ++ ev3 ++
                 [Event.hw (Hw.parkNB st7.angle_q31 i_alpha_q31 i_beta_q31),
                  Event.out (Msg.parkCordicOut result_p_id result_p_iq),
                  Event.out (Msg.parkMathOut m_id m_iq)],
               rest3)
            else (st6, ev0 ++ ev1 ++ evA ++ ev2 ++ evB ++ ev3, rest3)
        else (st4, ev0 ++ ev1 ++ evA ++ ev2, rest2)
    else (st2, ev0 ++ ev1, rest1)

/-- The switch statement of run_cordic_functions: selector values 0 through 9
dispatch to the ten handlers; every other value prints the wrong-option
message and calls nothing. -/
def dispatch (c : Collab) (sel : ℤ) (st : CState) (input : List String) :
    CState × List Event × List String :=
  if sel = 0 then park_transform c st input
  else if sel = 1 then sine c st input
  else if sel = 2 then cosine c st input
  else if sel = 3 then tangent c st input
  else if sel = 4 then arc_tangent c st input
  else if sel = 5 then hyperbolic_sine c st input
  else if sel = 6 then hyperbolic_cosine c st input
  else if sel = 7 then hyperbolic_tangent c st input
  else if sel = 8 then hyperbolic_arc_tangent c st input
  else if sel = 9 then square_root c st input
  else (st, [Event.out Msg.wrongOption], input)

/-- One iteration of the for(;;) loop of run_cordic_functions: print the
menu, read the selector token, and when the read succeeded store the atoi
conversion in cordic_function and dispatch on it; every iteration ends by
printing the blank separator lines. -/
def loop_iter (c : Collab) (st : CState) (input : List String) :
    CState × List Event × List String :=
  match input with
  | [] =>
      ({ st with read_status := -1 },
       [Event.out Msg.menu, Event.out Msg.blankLines], [])
  | tok :: rest =>
      let st1 := { st with read_status := 1, read_string := tok,
                           cordic_function := atoi tok }
      let (st2, evs, rest2) := dispatch c st1.cordic_function st1 rest
      (st2, Event.out Msg.menu :: (evs ++ [Event.out Msg.blankLines]), rest2)

/-- A bounded number of iterations of the (infinite) menu loop of
run_cordic_functions. -/
def run_loop (c : Collab) : ℕ → CState → List String → CState × List Event
  | 0, st, _ => (st, [])
  | n + 1, st, input =>
      let (st1, evs, rest) := loop_iter c st input
      let (st2, evs2) := run_loop c n st1 rest
      (st2, evs ++ evs2)

/-- Modelled from the spec: truncated Taylor approximation standing in for
the math-library sine (exact at argument 0, the only point at which a claim
evaluates it). -/
def sinApx (x : ℚ) : ℚ := x - x ^ 3 / 6 + x ^ 5 / 120

/-- Modelled from the spec: truncated Taylor approximation standing in for
the math-library cosine (exact at argument 0). -/
def cosApx (x : ℚ) : ℚ := 1 - x ^ 2 / 2 + x ^ 4 / 24

/-- Modelled from the spec: truncated Taylor approximation standing in for
the math-library hyperbolic sine. -/
def sinhApx (x : ℚ) : ℚ := x + x ^ 3 / 6 + x ^ 5 / 120

/-- Modelled from the spec: truncated Taylor approximation standing in for
the math-library hyperbolic cosine. -/
def coshApx (x : ℚ) : ℚ := 1 + x ^ 2 / 2 + x ^ 4 / 24

/-- Modelled from the spec: truncated Taylor approximation standing in for
the math-library arc tangent. -/
def atanApx (x : ℚ) : ℚ := x - x ^ 3 / 3 + x ^ 5 / 5

/-- Modelled from the spec: truncated Taylor approximation standing in for
the math-library inverse hyperbolic tangent. -/
def atanhApx (x : ℚ) : ℚ := x + x ^ 3 / 3 + x ^ 5 / 5

/-- Digit-by-digit integer square root: try setting each bit of the result
from bit k-1 downward.  For n < 2^64 the call with k = 32 returns the floor
of the square root. -/
def iSqrtGo (n : ℕ) : ℕ → ℕ → ℕ
  | 0, acc => acc
  | k + 1, acc =>
      let t := acc + 2 ^ k
      if t * t ≤ n then iSqrtGo n k t else iSqrtGo n k acc

/-- Floor integer square root for arguments below 2^64. -/
def iSqrt (n : ℕ) : ℕ := iSqrtGo n 32 0

/-- Modelled from the spec: the value of a Q31 operand of an accelerator
primitive; the stored integer divided by 2^31. -/
def q31Val (x : ℤ) : ℚ := (x : ℚ) / 2 ^ 31

/-- Modelled from the spec: the radian angle denoted by a Q31 angle operand
(the format in which FLOAT_DEG_TO_RAD_Q31 produces angles: the stored
integer divided by 2^31, times pi). -/
def thetaOfQ31 (aq : ℤ) : ℚ := piC * aq / 2 ^ 31

/-- Modelled from the spec: the accelerator park transform in circular mode.
It rotates the (alpha, beta) vector by the Q31 angle and returns both
components in Q23 format, amplified by the circular gain 1.646760258121
(the gain the handler must divide out). -/
def hwParkModel (aq ia ib : ℤ) : ℤ × ℤ :=
  let th := thetaOfQ31 aq
  let a := q31Val ia
  let b := q31Val ib
  (truncQ (CORDIC_CIRCULAR_GAIN * (a * cosApx th + b * sinApx th) * 2 ^ 23),
   truncQ (CORDIC_CIRCULAR_GAIN * (b * cosApx th - a * sinApx th) * 2 ^ 23))

/-- Modelled from the spec: the CMSIS software park transform arm_park_q31;
Id = alpha cos + beta sin and Iq = beta cos - alpha sin in Q31 arithmetic,
each product arithmetically shifted right by 31 bits. -/
def armParkModel (ia ib s co : ℤ) : ℤ × ℤ :=
  (Int.fdiv (ia * co) (2 ^ 31) + Int.fdiv (ib * s) (2 ^ 31),
   Int.fdiv (ib * co) (2 ^ 31) - Int.fdiv (ia * s) (2 ^ 31))

/-- Modelled from the spec: the accelerator square root; for a nonnegative
Q31 operand n it returns the Q31 square root of n/2^31, i.e. the floor of
sqrt(n * 2^31). -/
def hwSqrtModel (n : ℤ) : ℤ :=
  if n < 0 then 0 else (iSqrt (n.toNat * 2 ^ 31) : ℤ)

/-- Lift a rational approximation to the modelled float type, propagating
NaN. -/
def liftF (f : ℚ → ℚ) : F → F
  | F.fin q => F.fin (f q)
  | F.nan => F.nan

/-- Modelled from the spec: the math-library square root; NaN on negative
arguments, otherwise the floor square root at Q31 granularity (exact at the
arguments 1/4 and 1 the claims evaluate). -/
def sqrtModelF : F → F
  | F.nan => F.nan
  | F.fin q =>
      if q < 0 then F.nan
      else F.fin ((iSqrt (truncQ (q * 2 ^ 62)).toNat : ℚ) / 2 ^ 31)

/-- Modelled from the spec: the two-argument arc tangent of the math
library, for the first-quadrant arguments the program passes it. -/
def atan2ModelF : F → F → F
  | F.fin y, F.fin x => F.fin (atanApx (y / x))
  | _, _ => F.nan

/-- Modelled from the spec: a concrete instance of every external
collaborator, assembled from the models above.  Accelerator primitives
return the fixed-point encoding of the approximated mathematical function,
in the result format the source converts from. -/
def specCollab : Collab :=
  { hwSin := fun a => truncQ (2 ^ 31 * sinApx (thetaOfQ31 a))
    hwCos := fun a => truncQ (2 ^ 31 * cosApx (thetaOfQ31 a))
    hwTan := fun a => truncQ (2 ^ 11 * (sinApx (thetaOfQ31 a) / cosApx (thetaOfQ31 a)))
    hwArcTan := fun den num => truncQ (2 ^ 31 / piC * atanApx ((num : ℚ) / (den : ℚ)))
    hwSinh := fun a => truncQ (2 ^ 30 * sinhApx (thetaOfQ31 a))
    hwCosh := fun a => truncQ (2 ^ 30 * coshApx (thetaOfQ31 a))
    hwTanh := fun a => truncQ (2 ^ 11 * (sinhApx (thetaOfQ31 a) / coshApx (thetaOfQ31 a)))
    hwArcTanh := fun den num => truncQ (2 ^ 31 / piC * atanhApx ((num : ℚ) / (den : ℚ)))
    hwSqrt := hwSqrtModel
    hwPark := hwParkModel
    armPark := armParkModel
    sinF := liftF sinApx
    cosF := liftF cosApx
    tanF := liftF (fun x => sinApx x / cosApx x)
    sinhF := liftF sinhApx
    coshF := liftF coshApx
    tanhF := liftF (fun x => sinhApx x / coshApx x)
    atan2F := atan2ModelF
    atanhF := liftF atanhApx
    sqrtF := sqrtModelF }

/-- A degenerate collaborator instance that returns zero everywhere, used by
statements whose truth does not depend on collaborator values. -/
def zeroCollab : Collab :=
  { hwSin := fun _ => 0
    hwCos := fun _ => 0
    hwTan := fun _ => 0
    hwArcTan := fun _ _ => 0
    hwSinh := fun _ => 0
    hwCosh := fun _ => 0
    hwTanh := fun _ => 0
    hwArcTanh := fun _ _ => 0
    hwSqrt := fun _ => 0
    hwPark := fun _ _ _ => (0, 0)
    armPark := fun _ _ _ _ => (0, 0)
    sinF := fun _ => F.fin 0
    cosF := fun _ => F.fin 0
    tanF := fun _ => F.fin 0
    sinhF := fun _ => F.fin 0
    coshF := fun _ => F.fin 0
    tanhF := fun _ => F.fin 0
    atan2F := fun _ _ => F.fin 0
    atanhF := fun _ => F.fin 0
    sqrtF := fun _ => F.fin 0 }

/-- Test for a hardware-accelerator invocation event. -/
def isHwEvent : Event → Bool
  | Event.hw _ => true
  | _ => false

/-- Whether a trace contains at least one hardware-accelerator call. -/
def hasHwCall (evs : List Event) : Bool := evs.any isHwEvent

/-- Test for a result-printing event (any of the printf calls that
interpolate a computed result value). -/
def isResultEvent : Event → Bool
  | Event.out (Msg.resultOut _ _) => true
  | Event.out (Msg.parkCordicOut _ _) => true
  | Event.out (Msg.parkMathOut _ _) => true
  | _ => false

/-- Whether a trace prints at least one computed result. -/
def hasResultOut (evs : List Event) : Bool := evs.any isResultEvent

/-- Whether a trace contains a given fixed console message. -/
def hasMsg (m : Msg) (evs : List Event) : Bool := evs.contains (Event.out m)

lemma truncQ_dist (q : ℚ) : |(truncQ q : ℚ) - q| < 1 := by
  unfold truncQ
  rw [abs_sub_lt_iff]
  split
  · exact ⟨by linarith [Int.ceil_lt_add_one q], by linarith [Int.le_ceil q]⟩
  · exact ⟨by linarith [Int.floor_le q], by linarith [Int.lt_floor_add_one q]⟩

lemma truncQ_bounds (q : ℚ) (hlo : -(2 ^ 31) ≤ q) (hhi : q < 2 ^ 31) :
    -(2 ^ 31) ≤ truncQ q ∧ truncQ q ≤ 2 ^ 31 - 1 := by
  unfold truncQ
  split
  · rename_i h
    constructor
    · have : ((-(2 ^ 31) : ℤ) : ℚ) ≤ q := by push_cast; linarith
      calc (-(2 ^ 31) : ℤ) = ⌈((-(2 ^ 31) : ℤ) : ℚ)⌉ := (Int.ceil_intCast _).symm
        _ ≤ ⌈q⌉ := Int.ceil_le_ceil this
    · have h0 : ⌈q⌉ ≤ 0 := Int.ceil_le.mpr (by exact_mod_cast le_of_lt h)
      omega
  · rename_i h
    push_neg at h
    constructor
    · have h0 : 0 ≤ ⌊q⌋ := Int.floor_nonneg.mpr h
      omega
    · have : ⌊q⌋ < 2 ^ 31 := Int.floor_lt.mpr (by push_cast; linarith)
      omega

lemma i32ofF_of_range (q : ℚ) (hlo : -(2 ^ 31) ≤ q) (hhi : q < 2 ^ 31) :
    i32ofF (F.fin q) = truncQ q := by
  have hb := truncQ_bounds q hlo hhi
  simp only [i32ofF]
  rw [if_neg (by omega), if_neg (by omega)]

lemma check_range_in (low high v : ℚ) (h1 : low ≤ v) (h2 : v ≤ high) :
    check_range (F.fin low) (F.fin high) (F.fin v) = (CyStatus.success, []) := by
  simp [check_range, fgt, flt, not_lt.mpr h1, not_lt.mpr h2]

lemma check_range_out (low high v : ℚ) (h : v < low ∨ high < v) :
    check_range (F.fin low) (F.fin high) (F.fin v)
      = (CyStatus.badParam, [Event.out Msg.notInRange]) := by
  rcases h with h | h <;> simp [check_range, fgt, flt, h]

/-- C1: check_range returns the success status iff low ≤ value ≤ high, both
endpoints inclusive; in every other case it prints the range diagnostic and
returns the bad-parameter status (so in particular value = low and
value = high are accepted, and values strictly outside are rejected). -/
theorem C1_check_range_iff (low high v : ℚ) :
    ((check_range (F.fin low) (F.fin high) (F.fin v)).1 = CyStatus.success
      ↔ low ≤ v ∧ v ≤ high)
    ∧ (¬(low ≤ v ∧ v ≤ high) →
        check_range (F.fin low) (F.fin high) (F.fin v)
          = (CyStatus.badParam, [Event.out Msg.notInRange])) := by
  constructor
  · constructor
    · intro h
      by_contra hc
      push_neg at hc
      rcases le_or_lt low v with h1 | h1
      · have := check_range_out low high v (Or.inr (hc h1))
        rw [this] at h
        exact absurd h (by simp)
      · have := check_range_out low high v (Or.inl h1)
        rw [this] at h
        exact absurd h (by simp)
    · rintro ⟨h1, h2⟩
      rw [check_range_in low high v h1 h2]
  · intro hc
    push_neg at hc
    rcases le_or_lt low v with h1 | h1
    · exact check_range_out low high v (Or.inr (hc h1))
    · exact check_range_out low high v (Or.inl h1)

/-- C1 witness: the upper endpoint 1 of the range [0, 1] is accepted, and
the out-of-range value 2 is rejected with the diagnostic. -/
theorem C1_check_range_iff_witness :
    (check_range (F.fin 0) (F.fin 1) (F.fin 1)).1 = CyStatus.success
    ∧ check_range (F.fin 0) (F.fin 1) (F.fin 2)
        = (CyStatus.badParam, [Event.out Msg.notInRange]) :=
  ⟨(C1_check_range_iff 0 1 1).1.mpr (by norm_num),
   (C1_check_range_iff 0 1 2).2 (by norm_num)⟩

/-- C2 counterexample: for x = 1, inside the 8Q23 representable range, the
composition Q23_TO_FLOAT(FLOAT_TO_Q8_23(x)) gives 256/8388607, about
0.0000305, which misses x = 1 by more than 1/256, the coarsest candidate
reading of one unit in the format's last place (the claim fails a fortiori
for the finer readings 2^-23 and 1/8388607). -/
theorem C2_roundtrip_cex :
    Q23_TO_FLOAT (FLOAT_TO_Q8_23 (F.fin 1)) = F.fin (256 / 8388607)
    ∧ |(256 / 8388607 : ℚ) - 1| > 1 / 256 := by
  constructor
  · norm_num [FLOAT_TO_Q8_23, fmul, Q8_MULTIPLIER, i32ofF, truncQ,
      Q23_TO_FLOAT, Q23_MULTIPLIER]
  · rw [abs_sub_comm, abs_of_pos (by norm_num)]
    norm_num

/-- C2 amended: the round-trip recovery within one unit in the last place
holds for the Q31 pair (on the representable range [-1, 1) the error is
strictly below 2^-31); the two 8Q23-format macros are not mutually inverse:
FLOAT_TO_Q8_23 multiplies by 2^8 = 256 while Q23_TO_FLOAT divides by
8388607, so on the representable range their composition maps y to
trunc(256 y)/8388607 instead of recovering y. -/
theorem C2_roundtrip_amended (x : ℚ) (h1 : -1 ≤ x) (h2 : x < 1) :
    |(Q31_TO_FLOAT (FLOAT_TO_Q31 (F.fin x))).toQ - x| < 1 / 2 ^ 31
    ∧ ∀ y : ℚ, -256 ≤ y → y < 256 →
        Q23_TO_FLOAT (FLOAT_TO_Q8_23 (F.fin y))
          = F.fin ((truncQ (y * 256) : ℚ) / 8388607) := by
  constructor
  · have hmac : FLOAT_TO_Q31 (F.fin x) = truncQ (x * 2147483648) := by
      simp only [FLOAT_TO_Q31, fmul, Q31_MULTIPLIER]
      push_cast
      exact i32ofF_of_range _ (by linarith) (by linarith)
    rw [hmac]
    simp only [Q31_TO_FLOAT, F.toQ, Q31_MULTIPLIER]
    have hd := truncQ_dist (x * 2147483648)
    rw [abs_lt] at hd ⊢
    push_cast at hd ⊢
    constructor <;> linarith
  · intro y hy1 hy2
    have hmac : FLOAT_TO_Q8_23 (F.fin y) = truncQ (y * 256) := by
      simp only [FLOAT_TO_Q8_23, fmul, Q8_MULTIPLIER]
      push_cast
      exact i32ofF_of_range _ (by linarith) (by linarith)
    rw [hmac]
    simp only [Q23_TO_FLOAT, Q23_MULTIPLIER]
    norm_num

/-- C3: the Q31, 1Q30 and 20Q11 conversions divide by their exact powers of
two, but the Q23 conversion divides by Q23_MULTIPLIER = 8388607 = 2^23 - 1,
not by the power of two 2^23 that the claim (and the source's own comment,
which reads 1<<23) names: at the stored integer 8388607 the code returns
exactly 1 while division by 2^23 would give 8388607/8388608. -/
theorem C3_fixed_to_float_scales :
    (∀ x : ℤ, Q31_TO_FLOAT x = F.fin ((x : ℚ) / 2 ^ 31)
      ∧ Q1_30_TO_FLOAT x = F.fin ((x : ℚ) / 2 ^ 30)
      ∧ Q20_11_TO_FLOAT x = F.fin ((x : ℚ) / 2 ^ 11))
    ∧ Q23_TO_FLOAT 8388607 = F.fin 1
    ∧ ((8388607 : ℚ) / 2 ^ 23 ≠ 1)
    ∧ Q23_MULTIPLIER ≠ 2 ^ 23 := by
  refine ⟨fun x => ⟨?_, ?_, ?_⟩, ?_, by norm_num, by norm_num [Q23_MULTIPLIER]⟩
  · norm_num [Q31_TO_FLOAT, Q31_MULTIPLIER]
  · norm_num [Q1_30_TO_FLOAT, Q30_MULTIPLIER]
  · norm_num [Q20_11_TO_FLOAT, Q11_MULTIPLIER]
  · norm_num [Q23_TO_FLOAT, Q23_MULTIPLIER]

lemma dv0 : digitVal '0' = 0 := rfl
lemma dv1 : digitVal '1' = 1 := rfl
lemma dv2 : digitVal '2' = 2 := rfl
lemma dv3 : digitVal '3' = 3 := rfl
lemma dv4 : digitVal '4' = 4 := rfl
lemma dv5 : digitVal '5' = 5 := rfl
lemma dv6 : digitVal '6' = 6 := rfl
lemma dv7 : digitVal '7' = 7 := rfl
lemma dv8 : digitVal '8' = 8 := rfl
lemma dv9 : digitVal '9' = 9 := rfl

lemma atof_one : atof "1" = F.fin 1 := by
  simp [atof, skipSpaces, atofMag, scanIntPart, dv1]

lemma atof_zero : atof "0" = F.fin 0 := by
  simp [atof, skipSpaces, atofMag, scanIntPart, dv0]

lemma atof_quarter : atof "0.25" = F.fin (1 / 4) := by
  simp [atof, skipSpaces, atofMag, scanIntPart, scanFracPart, dv0, dv2, dv5]
  norm_num

lemma atof_half : atof "0.5" = F.fin (1 / 2) := by
  simp [atof, skipSpaces, atofMag, scanIntPart, scanFracPart, dv0, dv5]
  norm_num

lemma atof_hundred : atof "100" = F.fin 100 := by
  simp [atof, skipSpaces, atofMag, scanIntPart, dv0, dv1]
  norm_num

lemma atof_nan : atof "nan" = F.nan := by
  simp [atof, skipSpaces]

lemma atoi_42 : atoi "42" = 42 := by
  simp [atoi, skipSpaces, scanDigitsInt, dv2, dv4]

lemma atoi_plus5 : atoi "+5" = 5 := by
  simp [atoi, skipSpaces, scanDigitsInt, dv5]

/-- C4 counterexample: the input token 1 parses to the value 1, which lies
outside the open interval (0,1) named by the claim, yet the square-root
handler accepts it: the trace contains the hardware call and the result
prints and no range message (check_range uses inclusive bounds, and the
explicit guard only excludes 0). -/
theorem C4_sqrt_cex :
    atof "1" = F.fin 1
    ∧ hasHwCall (square_root specCollab initState ["1"]).2.1 = true
    ∧ hasResultOut (square_root specCollab initState ["1"]).2.1 = true
    ∧ hasMsg Msg.notInRange (square_root specCollab initState ["1"]).2.1 = false := by
  have hc : check_range (F.fin 0) (F.fin 1) (F.fin 1) = (CyStatus.success, []) :=
    check_range_in 0 1 1 (by norm_num) (by norm_num)
  have hne : fne (F.fin 0) (F.fin 1) = true := by norm_num [fne]
  have hfq : feq (F.fin 0) (F.fin 1) = false := by norm_num [feq]
  refine ⟨atof_one, ?_⟩
  simp only [square_root, scanfTok, atof_one, hc, hne, hfq]
  simp [hasHwCall, hasResultOut, hasMsg, isHwEvent, isResultEvent]

/-- C4 amended: the square-root handler accepts exactly the half-open
interval (0, 1]: an exact zero gets the dedicated zero message (distinct
from the range message) and no computation; a value strictly below 0 or
strictly above 1 gets the range message and no computation; every value
with 0 < value ≤ 1 (including 1) reaches the hardware call and both result
prints; and input 0.25 yields hardware and software results both exactly
0.5 under the spec-modelled collaborators. -/
theorem C4_sqrt_amended (c : Collab) (st : CState) (tok : String) (v : ℚ)
    (hv : atof tok = F.fin v) :
    (0 < v → v ≤ 1 →
        hasHwCall (square_root c st [tok]).2.1 = true
        ∧ hasResultOut (square_root c st [tok]).2.1 = true
        ∧ hasMsg Msg.notInRange (square_root c st [tok]).2.1 = false
        ∧ hasMsg Msg.enteredZero (square_root c st [tok]).2.1 = false)
    ∧ (v = 0 →
        hasMsg Msg.enteredZero (square_root c st [tok]).2.1 = true
        ∧ hasMsg Msg.notInRange (square_root c st [tok]).2.1 = false
        ∧ hasHwCall (square_root c st [tok]).2.1 = false
        ∧ hasResultOut (square_root c st [tok]).2.1 = false)
    ∧ ((v < 0 ∨ 1 < v) →
        hasMsg Msg.notInRange (square_root c st [tok]).2.1 = true
        ∧ hasMsg Msg.enteredZero (square_root c st [tok]).2.1 = false
        ∧ hasHwCall (square_root c st [tok]).2.1 = false
        ∧ hasResultOut (square_root c st [tok]).2.1 = false)
    ∧ (square_root specCollab initState ["0.25"]).2.1
        = [Event.out (Msg.selected "square root"),
           Event.out (Msg.promptFor "value above 0 and below 1"),
           Event.hw (Hw.sqrtQ 536870912),
           Event.out (Msg.resultOut "sqrt cordic" (F.fin (1 / 2))),
           Event.out (Msg.resultOut "sqrt math" (F.fin (1 / 2)))] := by
  refine ⟨?_, ?_, ?_, ?_⟩
  · intro h1 h2
    have hc := check_range_in 0 1 v (le_of_lt h1) h2
    have hne : fne (F.fin 0) (F.fin v) = true := by simp [fne]; exact h1.ne
    have hfq : feq (F.fin 0) (F.fin v) = false := by simp [feq]; exact h1.ne
    simp only [square_root, scanfTok, hv, hc, hne, hfq]
    simp [hasHwCall, hasResultOut, hasMsg, isHwEvent, isResultEvent]
  · intro h0
    subst h0
    have hc := check_range_in 0 1 0 (by norm_num) (by norm_num)
    have hne : fne (F.fin 0) (F.fin 0) = false := by norm_num [fne]
    have hfq : feq (F.fin 0) (F.fin 0) = true := by norm_num [feq]
    simp only [square_root, scanfTok, hv, hc, hne, hfq]
    simp [hasHwCall, hasResultOut, hasMsg, isHwEvent, isResultEvent]
  · intro hout
    have hc := check_range_out 0 1 v hout
    have hvne : v ≠ 0 := by rcases hout with h | h <;> [exact h.ne; positivity]
    have hfq : feq (F.fin 0) (F.fin v) = false := by
      simp [feq]; exact fun e => hvne e.symm
    have hcond : (CyStatus.badParam = CyStatus.success
        ∧ fne (F.fin 0) (F.fin v) = true) = False := by simp
    simp only [square_root, scanfTok, hv, hc, hfq, hcond, if_false]
    simp [hasHwCall, hasResultOut, hasMsg, isHwEvent, isResultEvent]
  · have hc := check_range_in 0 1 (1 / 4) (by norm_num) (by norm_num)
    have hne : fne (F.fin 0) (F.fin (1 / 4)) = true := by norm_num [fne]
    have hfq : feq (F.fin 0) (F.fin (1 / 4)) = false := by norm_num [feq]
    have hftq : FLOAT_TO_Q31 (F.fin (1 / 4)) = 536870912 := by
      norm_num [FLOAT_TO_Q31, fmul, Q31_MULTIPLIER, i32ofF, truncQ]
    have hhw : hwSqrtModel 536870912 = 1073741824 := by decide
    have h1 : truncQ ((1152921504606846976 : ℚ)) = 1152921504606846976 := by
      norm_num [truncQ]
    have h2 : iSqrt (Int.toNat 1152921504606846976) = 1073741824 := by decide
    have hsw : sqrtModelF (F.fin (1 / 4)) = F.fin (1 / 2) := by
      norm_num [sqrtModelF, h1, h2]
    simp only [square_root, scanfTok, atof_quarter, hc, hne, hfq, specCollab,
      hftq, hhw, hsw]
    norm_num [Q31_TO_FLOAT, Q31_MULTIPLIER]

/-- C4 witness: the in-range value 0.5 (token 0.5) is accepted by the
square-root handler: hardware call and result prints, no error messages. -/
theorem C4_sqrt_amended_witness :
    hasHwCall (square_root zeroCollab initState ["0.5"]).2.1 = true
    ∧ hasResultOut (square_root zeroCollab initState ["0.5"]).2.1 = true
    ∧ hasMsg Msg.notInRange (square_root zeroCollab initState ["0.5"]).2.1 = false
    ∧ hasMsg Msg.enteredZero (square_root zeroCollab initState ["0.5"]).2.1 = false :=
  (C4_sqrt_amended zeroCollab initState "0.5" (1 / 2) atof_half).1
    (by norm_num) (by norm_num)

lemma dispatch_default (c : Collab) (sel : ℤ) (st : CState) (input : List String)
    (h : sel < 0 ∨ 9 < sel) :
    dispatch c sel st input = (st, [Event.out Msg.wrongOption], input) := by
  unfold dispatch
  repeat rw [if_neg (show ¬_ = _ by omega)]

/-- C5 amended: a selector token whose atoi value names none of the ten
operations makes the loop iteration print the wrong-option message, call no
handler (no prompt, no hardware call, no result), and leave the input
stream untouched, and the next iteration re-prints the menu; but the
iteration does modify shared variables: read_status, read_string and
cordic_function (which receives the parsed selector) are overwritten. -/
theorem C5_unrecognized_selector (c : Collab) (st : CState) (tok : String)
    (rest : List String) (h : atoi tok < 0 ∨ 9 < atoi tok) :
    loop_iter c st (tok :: rest)
      = ({ st with read_status := 1, read_string := tok,
                   cordic_function := atoi tok },
         [Event.out Msg.menu, Event.out Msg.wrongOption, Event.out Msg.blankLines],
         rest)
    ∧ (run_loop c 2 st [tok]).2
        = [Event.out Msg.menu, Event.out Msg.wrongOption, Event.out Msg.blankLines,
           Event.out Msg.menu, Event.out Msg.blankLines] := by
  have h1 : loop_iter c st (tok :: rest)
      = ({ st with read_status := 1, read_string := tok,
                   cordic_function := atoi tok },
         [Event.out Msg.menu, Event.out Msg.wrongOption, Event.out Msg.blankLines],
         rest) := by
    simp only [loop_iter, dispatch_default c (atoi tok) _ _ h]
    simp
  have h2 : loop_iter c st [tok]
      = ({ st with read_status := 1, read_string := tok,
                   cordic_function := atoi tok },
         [Event.out Msg.menu, Event.out Msg.wrongOption, Event.out Msg.blankLines],
         []) := by
    simp only [loop_iter, dispatch_default c (atoi tok) _ _ h]
    simp
  refine ⟨h1, ?_⟩
  show (run_loop c (1 + 1) st [tok]).2 = _
  rw [run_loop, h2]
  simp [run_loop, loop_iter]

/-- C5 witness: the token 42 triggers the wrong-option message, no handler
activity, and a menu re-print on the next iteration. -/
theorem C5_unrecognized_selector_witness :
    loop_iter zeroCollab initState ["42"]
      = ({ initState with read_status := 1, read_string := "42",
                          cordic_function := 42 },
         [Event.out Msg.menu, Event.out Msg.wrongOption, Event.out Msg.blankLines],
         [])
    ∧ (run_loop zeroCollab 2 initState ["42"]).2
        = [Event.out Msg.menu, Event.out Msg.wrongOption, Event.out Msg.blankLines,
           Event.out Msg.menu, Event.out Msg.blankLines] := by
  have := C5_unrecognized_selector zeroCollab initState "42" []
    (by rw [atoi_42]; norm_num)
  rw [atoi_42] at this
  exact this

/-- C5 counterexample: with the shared selector variable previously holding
1, the iteration on the unrecognized token 42 overwrites it with 42 (and
read_string and read_status as well), so the claim that no shared variable
is modified by such an iteration is false. -/
theorem C5_state_modified_cex :
    atoi "42" = 42
    ∧ (loop_iter zeroCollab { initState with cordic_function := 1 }
        ["42"]).1.cordic_function = 42
    ∧ ({ initState with cordic_function := 1 } : CState).cordic_function = 1 := by
  refine ⟨atoi_42, ?_, rfl⟩
  simp only [loop_iter, atoi_42]
  rw [dispatch_default zeroCollab 42 _ [] (by norm_num)]

/-- C2 witness: concrete instances of the amended statement, at x = 1/3 for
the Q31 round trip and y = 1/2 for the 8Q23 composition. -/
theorem C2_roundtrip_amended_witness :
    |(Q31_TO_FLOAT (FLOAT_TO_Q31 (F.fin (1 / 3)))).toQ - 1 / 3| < 1 / 2 ^ 31
    ∧ Q23_TO_FLOAT (FLOAT_TO_Q8_23 (F.fin (1 / 2)))
        = F.fin ((truncQ (1 / 2 * 256) : ℚ) / 8388607) :=
  ⟨(C2_roundtrip_amended (1 / 3) (by norm_num) (by norm_num)).1,
   (C2_roundtrip_amended (1 / 3) (by norm_num) (by norm_num)).2 (1 / 2)
     (by norm_num) (by norm_num)⟩

/-- C6 counterexample: the park-transform handler invoked with the
out-of-range angle token 100 aborts before any hardware call, yet the
shared global angle_deg afterwards holds 100 where it held 0 before, so the
claim that no shared variable differs after a failed invocation is false. -/
theorem C6_state_modified_cex :
    atof "100" = F.fin 100
    ∧ hasHwCall (park_transform zeroCollab initState ["100"]).2.1 = false
    ∧ hasMsg Msg.notInRange (park_transform zeroCollab initState ["100"]).2.1 = true
    ∧ (park_transform zeroCollab initState ["100"]).1.angle_deg = F.fin 100
    ∧ initState.angle_deg = F.fin 0 := by
  have hc := check_range_out (-90) 90 100 (by norm_num)
  refine ⟨atof_hundred, ?_⟩
  simp only [park_transform, scanfTok, atof_hundred, hc]
  simp [hasHwCall, hasMsg, isHwEvent, initState]

/-- C6 amended: in every handler a parse failure (exhausted input, scanf
returning EOF) or a range-validation failure aborts the remaining steps,
with no fixed-point conversion recorded, no hardware call and no result
print, and returns to the menu; but the invocation is not free of
shared-state writes: a range failure overwrites the scanf scratch globals
read_status and read_string and each operand global already parsed in that
invocation (angle_deg for the park/sine/cosine/tangent/hyperbolic handlers,
ialpha and ibeta for the later park reads, numerator for arc_tangent; the
hyperbolic-arc-tangent and square-root handlers parse into locals and leave
the operand globals alone), and a parse failure sets read_status to EOF,
leaving read_string holding the last token read and keeping any operand
globals parsed by earlier reads of the same invocation. -/
theorem C6_failure_frame :
    (∀ (c : Collab) (st : CState) (tok : String) (v : ℚ) (rest : List String),
      atof tok = F.fin v → (v < -90 ∨ 90 < v) →
      park_transform c st (tok :: rest)
        = ({ st with read_status := 1, read_string := tok, angle_deg := F.fin v },
           [Event.out (Msg.selected "park transform"),
            Event.out (Msg.promptFor "angle in degree between -90 and 90"),
            Event.out Msg.notInRange], rest))
    ∧ (∀ (c : Collab) (st : CState) (t1 t2 : String) (a v : ℚ) (rest : List String),
      atof t1 = F.fin a → -90 ≤ a → a ≤ 90 →
      atof t2 = F.fin v → (v < -1 ∨ 1 < v) →
      park_transform c st (t1 :: t2 :: rest)
        = ({ st with read_status := 1, read_string := t2, angle_deg := F.fin a,
                     ialpha := F.fin v },
           [Event.out (Msg.selected "park transform"),
            Event.out (Msg.promptFor "angle in degree between -90 and 90"),
            Event.out (Msg.promptFor "i alpha between -1 and 1"),
            Event.out Msg.notInRange], rest))
    ∧ (∀ (c : Collab) (st : CState) (t1 t2 t3 : String) (a b v : ℚ)
        (rest : List String),
      atof t1 = F.fin a → -90 ≤ a → a ≤ 90 →
      atof t2 = F.fin b → -1 ≤ b → b ≤ 1 →
      atof t3 = F.fin v → (v < -1 ∨ 1 < v) →
      park_transform c st (t1 :: t2 :: t3 :: rest)
        = ({ st with read_status := 1, read_string := t3, angle_deg := F.fin a,
                     ialpha := F.fin b, ibeta := F.fin v },
           [Event.out (Msg.selected "park transform"),
            Event.out (Msg.promptFor "angle in degree between -90 and 90"),
            Event.out (Msg.promptFor "i alpha between -1 and 1"),
            Event.out (Msg.promptFor "i beta between -1 and 1"),
            Event.out Msg.notInRange], rest))
    ∧ (∀ (c : Collab) (st : CState) (tok : String) (v : ℚ) (rest : List String),
      atof tok = F.fin v → (v < -90 ∨ 90 < v) →
      sine c st (tok :: rest)
        = ({ st with read_status := 1, read_string := tok, angle_deg := F.fin v },
           [Event.out (Msg.selected "sine"),
            Event.out (Msg.promptFor "angle in degree between -90 and 90"),
            Event.out Msg.notInRange], rest))
    ∧ (∀ (c : Collab) (st : CState) (tok : String) (v : ℚ) (rest : List String),
      atof tok = F.fin v → (v < -90 ∨ 90 < v) →
      cosine c st (tok :: rest)
        = ({ st with read_status := 1, read_string := tok, angle_deg := F.fin v },
           [Event.out (Msg.selected "cosine"),
            Event.out (Msg.promptFor "angle in degree between -90 and 90"),
            Event.out Msg.notInRange], rest))
    ∧ (∀ (c : Collab) (st : CState) (tok : String) (v : ℚ) (rest : List String),
      atof tok = F.fin v → (v < -89 ∨ 89 < v) →
      tangent c st (tok :: rest)
        = ({ st with read_status := 1, read_string := tok, angle_deg := F.fin v },
           [Event.out (Msg.selected "tangent"),
            Event.out (Msg.promptFor "angle in degree between -89 and 89"),
            Event.out Msg.notInRange], rest))
    ∧ (∀ (c : Collab) (st : CState) (tok : String) (v : ℚ) (rest : List String),
      atof tok = F.fin v → (v < -57 ∨ 57 < v) →
      arc_tangent c st (tok :: rest)
        = ({ st with read_status := 1, read_string := tok, numerator := F.fin v },
           [Event.out (Msg.selected "arc tangent"),
            Event.out (Msg.promptFor "value between -57 and 57"),
            Event.out Msg.notInRange], rest))
    ∧ (∀ (c : Collab) (st : CState) (tok : String) (v : ℚ) (rest : List String),
      atof tok = F.fin v → (v < -60 ∨ 60 < v) →
      hyperbolic_sine c st (tok :: rest)
        = ({ st with read_status := 1, read_string := tok, angle_deg := F.fin v },
           [Event.out (Msg.selected "hyperbolic sine"),
            Event.out (Msg.promptFor "angle in degree between -60 and 60"),
            Event.out Msg.notInRange], rest))
    ∧ (∀ (c : Collab) (st : CState) (tok : String) (v : ℚ) (rest : List String),
      atof tok = F.fin v → (v < -60 ∨ 60 < v) →
      hyperbolic_cosine c st (tok :: rest)
        = ({ st with read_status := 1, read_string := tok, angle_deg := F.fin v },
           [Event.out (Msg.selected "hyperbolic cosine"),
            Event.out (Msg.promptFor "angle in degree between -60 and 60"),
            Event.out Msg.notInRange], rest))
    ∧ (∀ (c : Collab) (st : CState) (tok : String) (v : ℚ) (rest : List String),
      atof tok = F.fin v → (v < -60 ∨ 60 < v) →
      hyperbolic_tangent c st (tok :: rest)
        = ({ st with read_status := 1, read_string := tok, angle_deg := F.fin v },
           [Event.out (Msg.selected "hyperbolic tangent"),
            Event.out (Msg.promptFor "angle in degree between -60 and 60"),
            Event.out Msg.notInRange], rest))
    ∧ (∀ (c : Collab) (st : CState) (tok : String) (v : ℚ) (rest : List String),
      atof tok = F.fin v → (v < -(8 / 10) ∨ 8 / 10 < v) →
      hyperbolic_arc_tangent c st (tok :: rest)
        = ({ st with read_status := 1, read_string := tok },
           [Event.out (Msg.selected "hyperbolic arc tangent"),
            Event.out (Msg.promptFor "value between -0.8 and 0.8"),
            Event.out Msg.notInRange], rest))
    ∧ (∀ (c : Collab) (st : CState) (tok : String) (v : ℚ) (rest : List String),
      atof tok = F.fin v → (v < 0 ∨ 1 < v) →
      square_root c st (tok :: rest)
        = ({ st with read_status := 1, read_string := tok },
           [Event.out (Msg.selected "square root"),
            Event.out (Msg.promptFor "value above 0 and below 1"),
            Event.out Msg.notInRange], rest))
    ∧ (∀ (c : Collab) (st : CState),
      park_transform c st []
        = ({ st with read_status := -1 },
           [Event.out (Msg.selected "park transform"),
            Event.out (Msg.promptFor "angle in degree between -90 and 90")], []))
    ∧ (∀ (c : Collab) (st : CState) (t1 : String) (a : ℚ),
      atof t1 = F.fin a → -90 ≤ a → a ≤ 90 →
      park_transform c st [t1]
        = ({ st with read_status := -1, read_string := t1, angle_deg := F.fin a },
           [Event.out (Msg.selected "park transform"),
            Event.out (Msg.promptFor "angle in degree between -90 and 90"),
            Event.out (Msg.promptFor "i alpha between -1 and 1")], []))
    ∧ (∀ (c : Collab) (st : CState) (t1 t2 : String) (a al : ℚ),
      atof t1 = F.fin a → -90 ≤ a → a ≤ 90 →
      atof t2 = F.fin al → -1 ≤ al → al ≤ 1 →
      park_transform c st [t1, t2]
        = ({ st with read_status := -1, read_string := t2, angle_deg := F.fin a,
                     ialpha := F.fin al },
           [Event.out (Msg.selected "park transform"),
            Event.out (Msg.promptFor "angle in degree between -90 and 90"),
            Event.out (Msg.promptFor "i alpha between -1 and 1"),
            Event.out (Msg.promptFor "i beta between -1 and 1")], []))
    ∧ (∀ (c : Collab) (st : CState),
      sine c st []
        = ({ st with read_status := -1 },
           [Event.out (Msg.selected "sine"),
            Event.out (Msg.promptFor "angle in degree between -90 and 90")], []))
    ∧ (∀ (c : Collab) (st : CState),
      cosine c st []
        = ({ st with read_status := -1 },
           [Event.out (Msg.selected "cosine"),
            Event.out (Msg.promptFor "angle in degree between -90 and 90")], []))
    ∧ (∀ (c : Collab) (st : CState),
      tangent c st []
        = ({ st with read_status := -1 },
           [Event.out (Msg.selected "tangent"),
            Event.out (Msg.promptFor "angle in degree between -89 and 89")], []))
    ∧ (∀ (c : Collab) (st : CState),
      arc_tangent c st []
        = ({ st with read_status := -1 },
           [Event.out (Msg.selected "arc tangent"),
            Event.out (Msg.promptFor "value between -57 and 57")], []))
    ∧ (∀ (c : Collab) (st : CState),
      hyperbolic_sine c st []
        = ({ st with read_status := -1 },
           [Event.out (Msg.selected "hyperbolic sine"),
            Event.out (Msg.promptFor "angle in degree between -60 and 60")], []))
    ∧ (∀ (c : Collab) (st : CState),
      hyperbolic_cosine c st []
        = ({ st with read_status := -1 },
           [Event.out (Msg.selected "hyperbolic cosine"),
            Event.out (Msg.promptFor "angle in degree between -60 and 60")], []))
    ∧ (∀ (c : Collab) (st : CState),
      hyperbolic_tangent c st []
        = ({ st with read_status := -1 },
           [Event.out (Msg.selected "hyperbolic tangent"),
            Event.out (Msg.promptFor "angle in degree between -60 and 60")], []))
    ∧ (∀ (c : Collab) (st : CState),
      hyperbolic_arc_tangent c st []
        = ({ st with read_status := -1 },
           [Event.out (Msg.selected "hyperbolic arc tangent"),
            Event.out (Msg.promptFor "value between -0.8 and 0.8")], []))
    ∧ (∀ (c : Collab) (st : CState),
      square_root c st []
        = ({ st with read_status := -1 },
           [Event.out (Msg.selected "square root"),
            Event.out (Msg.promptFor "value above 0 and below 1")], [])) := by
  refine ⟨?_, ?_, ?_, ?_, ?_, ?_, ?_, ?_, ?_, ?_, ?_, ?_, ?_, ?_, ?_, ?_, ?_,
    ?_, ?_, ?_, ?_, ?_, ?_, ?_⟩
  · intro c st tok v rest hv hout
    have hc := check_range_out (-90) 90 v hout
    simp only [park_transform, scanfTok, hv, hc]
    simp
  · intro c st t1 t2 a v rest hv1 ha1 ha2 hv2 hout
    have hc1 := check_range_in (-90) 90 a ha1 ha2
    have hc2 := check_range_out (-1) 1 v hout
    simp only [park_transform, scanfTok, hv1, hc1, hv2, hc2]
    simp
  · intro c st t1 t2 t3 a b v rest hv1 ha1 ha2 hv2 hb1 hb2 hv3 hout
    have hc1 := check_range_in (-90) 90 a ha1 ha2
    have hc2 := check_range_in (-1) 1 b hb1 hb2
    have hc3 := check_range_out (-1) 1 v hout
    simp only [park_transform, scanfTok, hv1, hc1, hv2, hc2, hv3, hc3]
    simp
  · intro c st tok v rest hv hout
    have hc := check_range_out (-90) 90 v hout
    simp only [sine, scanfTok, hv, hc]
    simp
  · intro c st tok v rest hv hout
    have hc := check_range_out (-90) 90 v hout
    simp only [cosine, scanfTok, hv, hc]
    simp
  · intro c st tok v rest hv hout
    have hc := check_range_out (-89) 89 v hout
    simp only [tangent, scanfTok, hv, hc]
    simp
  · intro c st tok v rest hv hout
    have hc := check_range_out (-57) 57 v hout
    simp only [arc_tangent, scanfTok, hv, hc]
    simp
  · intro c st tok v rest hv hout
    have hc := check_range_out (-60) 60 v hout
    simp only [hyperbolic_sine, scanfTok, hv, hc]
    simp
  · intro c st tok v rest hv hout
    have hc := check_range_out (-60) 60 v hout
    simp only [hyperbolic_cosine, scanfTok, hv, hc]
    simp
  · intro c st tok v rest hv hout
    have hc := check_range_out (-60) 60 v hout
    simp only [hyperbolic_tangent, scanfTok, hv, hc]
    simp
  · intro c st tok v rest hv hout
    have hc := check_range_out (-(8 / 10)) (8 / 10) v hout
    simp only [hyperbolic_arc_tangent, scanfTok, hv, hc]
    simp
  · intro c st tok v rest hv hout
    have hc := check_range_out 0 1 v hout
    have hvne : v ≠ 0 := by rcases hout with h | h <;> [exact h.ne; positivity]
    have hfq : feq (F.fin 0) (F.fin v) = false := by
      simp [feq]; exact fun e => hvne e.symm
    have hcond : (CyStatus.badParam = CyStatus.success
        ∧ fne (F.fin 0) (F.fin v) = true) = False := by simp
    simp only [square_root, scanfTok, hv, hc, hfq, hcond, if_false]
    simp
  · intro c st
    simp [park_transform, scanfTok]
  · intro c st t1 a hv1 ha1 ha2
    have hc1 := check_range_in (-90) 90 a ha1 ha2
    simp only [park_transform, scanfTok, hv1, hc1]
    simp
  · intro c st t1 t2 a al hv1 ha1 ha2 hv2 hb1 hb2
    have hc1 := check_range_in (-90) 90 a ha1 ha2
    have hc2 := check_range_in (-1) 1 al hb1 hb2
    simp only [park_transform, scanfTok, hv1, hc1, hv2, hc2]
    simp
  · intro c st
    simp [sine, scanfTok]
  · intro c st
    simp [cosine, scanfTok]
  · intro c st
    simp [tangent, scanfTok]
  · intro c st
    simp [arc_tangent, scanfTok]
  · intro c st
    simp [hyperbolic_sine, scanfTok]
  · intro c st
    simp [hyperbolic_cosine, scanfTok]
  · intro c st
    simp [hyperbolic_tangent, scanfTok]
  · intro c st
    simp [hyperbolic_arc_tangent, scanfTok]
  · intro c st
    simp [square_root, scanfTok]
/-- C6 witness: the out-of-range angle token 100 makes the park-transform
handler abort with the range diagnostic, updating exactly read_status,
read_string and angle_deg. -/
theorem C6_failure_frame_witness :
    park_transform zeroCollab initState ["100"]
      = ({ initState with read_status := 1, read_string := "100",
                          angle_deg := F.fin 100 },
         [Event.out (Msg.selected "park transform"),
          Event.out (Msg.promptFor "angle in degree between -90 and 90"),
          Event.out Msg.notInRange], []) :=
  C6_failure_frame.1 zeroCollab initState "100" 100 [] atof_hundred (by norm_num)

lemma truncQ_eq_of_nonneg (n : ℤ) (q : ℚ) (h0 : 0 ≤ q) (h1 : (n : ℚ) ≤ q)
    (h2 : q < n + 1) : truncQ q = n := by
  unfold truncQ
  rw [if_neg (not_lt.mpr h0)]
  exact Int.floor_eq_iff.mpr ⟨h1, h2⟩

lemma ftq31_one : FLOAT_TO_Q31 (F.fin 1) = 2147483647 := by
  norm_num [FLOAT_TO_Q31, fmul, Q31_MULTIPLIER, i32ofF, truncQ]

lemma ftq31_zero : FLOAT_TO_Q31 (F.fin 0) = 0 := by
  norm_num [FLOAT_TO_Q31, fmul, Q31_MULTIPLIER, i32ofF, truncQ]

lemma fdrq31_zero : FLOAT_DEG_TO_RAD_Q31 (F.fin 0) = 0 := by
  norm_num [FLOAT_DEG_TO_RAD_Q31, fmul, i32ofF, truncQ]

lemma fdr_zero : FLOAT_DEG_TO_RAD (F.fin 0) = F.fin 0 := by
  norm_num [FLOAT_DEG_TO_RAD, fmul]

lemma hwpark_cex : hwParkModel 0 2147483647 0 = (13814026, 0) := by
  unfold hwParkModel thetaOfQ31 q31Val
  norm_num [sinApx, cosApx, CORDIC_CIRCULAR_GAIN]
  constructor
  · rw [truncQ_eq_of_nonneg 13814026 _ (by norm_num) (by norm_num) (by norm_num)]
  · norm_num [truncQ]

lemma armpark_cex : armParkModel 2147483647 0 0 2147483647 = (2147483646, 0) := by
  unfold armParkModel
  norm_num
  decide

lemma sinApx_zero : liftF sinApx (F.fin 0) = F.fin 0 := by
  norm_num [liftF, sinApx]

lemma cosApx_zero : liftF cosApx (F.fin 0) = F.fin 1 := by
  norm_num [liftF, cosApx]

/-- C7: for every in-range angle, alpha and beta, the park-transform
handler prints as its CORDIC results exactly Q23_TO_FLOAT of each raw
hardware output multiplied by 1/CORDIC_CIRCULAR_GAIN = 1/1.646760258121
(the division by the circular gain happens after the fixed-to-float
conversion and before the print); and with angle = 0, alpha = 1, beta = 0
under the spec-modelled collaborators both computation paths print Id
within 1/100 of 1 and Iq exactly 0. -/
theorem C7_park_gain :
    (∀ (c : Collab) (st : CState) (t1 t2 t3 : String) (a al be : ℚ)
        (rest : List String),
      atof t1 = F.fin a → -90 ≤ a → a ≤ 90 →
      atof t2 = F.fin al → -1 ≤ al → al ≤ 1 →
      atof t3 = F.fin be → -1 ≤ be → be ≤ 1 →
      park_transform c st (t1 :: t2 :: t3 :: rest)
        = ({ st with read_status := 1, read_string := t3, angle_deg := F.fin a,
                     ialpha := F.fin al, ibeta := F.fin be,
                     angle_rad := FLOAT_DEG_TO_RAD (F.fin a),
                     angle_q31 := FLOAT_DEG_TO_RAD_Q31 (F.fin a) },
           [Event.out (Msg.selected "park transform"),
            Event.out (Msg.promptFor "angle in degree between -90 and 90"),
            Event.out (Msg.promptFor "i alpha between -1 and 1"),
            Event.out (Msg.promptFor "i beta between -1 and 1"),
            Event.hw (Hw.parkNB (FLOAT_DEG_TO_RAD_Q31 (F.fin a))
              (FLOAT_TO_Q31 (F.fin al)) (FLOAT_TO_Q31 (F.fin be))),
            Event.out (Msg.parkCordicOut
              (fmul (Q23_TO_FLOAT (c.hwPark (FLOAT_DEG_TO_RAD_Q31 (F.fin a))
                  (FLOAT_TO_Q31 (F.fin al)) (FLOAT_TO_Q31 (F.fin be))).1)
                (F.fin (1 / CORDIC_CIRCULAR_GAIN)))
              (fmul (Q23_TO_FLOAT (c.hwPark (FLOAT_DEG_TO_RAD_Q31 (F.fin a))
                  (FLOAT_TO_Q31 (F.fin al)) (FLOAT_TO_Q31 (F.fin be))).2)
                (F.fin (1 / CORDIC_CIRCULAR_GAIN)))),
            Event.out (Msg.parkMathOut
              (Q31_TO_FLOAT (c.armPark (FLOAT_TO_Q31 (F.fin al))
                  (FLOAT_TO_Q31 (F.fin be))
                  (FLOAT_TO_Q31 (c.sinF (FLOAT_DEG_TO_RAD (F.fin a))))
                  (FLOAT_TO_Q31 (c.cosF (FLOAT_DEG_TO_RAD (F.fin a))))).1)
              (Q31_TO_FLOAT (c.armPark (FLOAT_TO_Q31 (F.fin al))
                  (FLOAT_TO_Q31 (F.fin be))
                  (FLOAT_TO_Q31 (c.sinF (FLOAT_DEG_TO_RAD (F.fin a))))
                  (FLOAT_TO_Q31 (c.cosF (FLOAT_DEG_TO_RAD (F.fin a))))).2))],
           rest))
    ∧ (park_transform specCollab initState ["0", "1", "0"]).2.1
        = [Event.out (Msg.selected "park transform"),
           Event.out (Msg.promptFor "angle in degree between -90 and 90"),
           Event.out (Msg.promptFor "i alpha between -1 and 1"),
           Event.out (Msg.promptFor "i beta between -1 and 1"),
           Event.hw (Hw.parkNB 0 2147483647 0),
           Event.out (Msg.parkCordicOut
             (F.fin (13814026000000000000 / 13814024628595627447)) (F.fin 0)),
           Event.out (Msg.parkMathOut
             (F.fin (1073741823 / 1073741824)) (F.fin 0))]
    ∧ |(13814026000000000000 : ℚ) / 13814024628595627447 - 1| < 1 / 100
    ∧ |(1073741823 : ℚ) / 1073741824 - 1| < 1 / 100 := by
  have hA : ∀ (c : Collab) (st : CState) (t1 t2 t3 : String) (a al be : ℚ)
      (rest : List String),
      atof t1 = F.fin a → -90 ≤ a → a ≤ 90 →
      atof t2 = F.fin al → -1 ≤ al → al ≤ 1 →
      atof t3 = F.fin be → -1 ≤ be → be ≤ 1 →
      park_transform c st (t1 :: t2 :: t3 :: rest)
        = ({ st with read_status := 1, read_string := t3, angle_deg := F.fin a,
                     ialpha := F.fin al, ibeta := F.fin be,
                     angle_rad := FLOAT_DEG_TO_RAD (F.fin a),
                     angle_q31 := FLOAT_DEG_TO_RAD_Q31 (F.fin a) },
           [Event.out (Msg.selected "park transform"),
            Event.out (Msg.promptFor "angle in degree between -90 and 90"),
            Event.out (Msg.promptFor "i alpha between -1 and 1"),
            Event.out (Msg.promptFor "i beta between -1 and 1"),
            Event.hw (Hw.parkNB (FLOAT_DEG_TO_RAD_Q31 (F.fin a))
              (FLOAT_TO_Q31 (F.fin al)) (FLOAT_TO_Q31 (F.fin be))),
            Event.out (Msg.parkCordicOut
              (fmul (Q23_TO_FLOAT (c.hwPark (FLOAT_DEG_TO_RAD_Q31 (F.fin a))
                  (FLOAT_TO_Q31 (F.fin al)) (FLOAT_TO_Q31 (F.fin be))).1)
                (F.fin (1 / CORDIC_CIRCULAR_GAIN)))
              (fmul (Q23_TO_FLOAT (c.hwPark (FLOAT_DEG_TO_RAD_Q31 (F.fin a))
                  (FLOAT_TO_Q31 (F.fin al)) (FLOAT_TO_Q31 (F.fin be))).2)
                (F.fin (1 / CORDIC_CIRCULAR_GAIN)))),
            Event.out (Msg.parkMathOut
              (Q31_TO_FLOAT (c.armPark (FLOAT_TO_Q31 (F.fin al))
                  (FLOAT_TO_Q31 (F.fin be))
                  (FLOAT_TO_Q31 (c.sinF (FLOAT_DEG_TO_RAD (F.fin a))))
                  (FLOAT_TO_Q31 (c.cosF (FLOAT_DEG_TO_RAD (F.fin a))))).1)
              (Q31_TO_FLOAT (c.armPark (FLOAT_TO_Q31 (F.fin al))
                  (FLOAT_TO_Q31 (F.fin be))
                  (FLOAT_TO_Q31 (c.sinF (FLOAT_DEG_TO_RAD (F.fin a))))
                  (FLOAT_TO_Q31 (c.cosF (FLOAT_DEG_TO_RAD (F.fin a))))).2))],
           rest) := by
    intro c st t1 t2 t3 a al be rest hv1 ha1 ha2 hv2 hb1 hb2 hv3 hcc1 hcc2
    have hc1 := check_range_in (-90) 90 a ha1 ha2
    have hc2 := check_range_in (-1) 1 al hb1 hb2
    have hc3 := check_range_in (-1) 1 be hcc1 hcc2
    simp only [park_transform, scanfTok, hv1, hc1, hv2, hc2, hv3, hc3]
    simp
  refine ⟨hA, ?_, by rw [abs_lt]; constructor <;> norm_num,
    by rw [abs_lt]; constructor <;> norm_num⟩
  rw [hA specCollab initState "0" "1" "0" 0 1 0 [] atof_zero (by norm_num)
    (by norm_num) atof_one (by norm_num) (by norm_num) atof_zero (by norm_num)
    (by norm_num)]
  simp only [specCollab, fdr_zero, fdrq31_zero, ftq31_one, ftq31_zero,
    sinApx_zero, cosApx_zero, hwpark_cex, armpark_cex]
  norm_num [fmul, Q23_TO_FLOAT, Q31_TO_FLOAT, Q23_MULTIPLIER, Q31_MULTIPLIER,
    CORDIC_CIRCULAR_GAIN]

/-- C7 witness: instantiation of the gain-removal trace shape at angle 0,
alpha 0, beta 0 under the degenerate collaborators. -/
theorem C7_park_gain_witness :
    park_transform zeroCollab initState ["0", "0", "0"]
      = ({ initState with
             read_status := 1, read_string := "0",
             angle_deg := F.fin 0, ialpha := F.fin 0, ibeta := F.fin 0,
             angle_rad := FLOAT_DEG_TO_RAD (F.fin 0),
             angle_q31 := FLOAT_DEG_TO_RAD_Q31 (F.fin 0) },
         [Event.out (Msg.selected "park transform"),
          Event.out (Msg.promptFor "angle in degree between -90 and 90"),
          Event.out (Msg.promptFor "i alpha between -1 and 1"),
          Event.out (Msg.promptFor "i beta between -1 and 1"),
          Event.hw (Hw.parkNB (FLOAT_DEG_TO_RAD_Q31 (F.fin 0))
            (FLOAT_TO_Q31 (F.fin 0)) (FLOAT_TO_Q31 (F.fin 0))),
          Event.out (Msg.parkCordicOut
            (fmul (Q23_TO_FLOAT (zeroCollab.hwPark (FLOAT_DEG_TO_RAD_Q31 (F.fin 0))
                (FLOAT_TO_Q31 (F.fin 0)) (FLOAT_TO_Q31 (F.fin 0))).1)
              (F.fin (1 / CORDIC_CIRCULAR_GAIN)))
            (fmul (Q23_TO_FLOAT (zeroCollab.hwPark (FLOAT_DEG_TO_RAD_Q31 (F.fin 0))
                (FLOAT_TO_Q31 (F.fin 0)) (FLOAT_TO_Q31 (F.fin 0))).2)
              (F.fin (1 / CORDIC_CIRCULAR_GAIN)))),
          Event.out (Msg.parkMathOut
            (Q31_TO_FLOAT (zeroCollab.armPark (FLOAT_TO_Q31 (F.fin 0))
                (FLOAT_TO_Q31 (F.fin 0))
                (FLOAT_TO_Q31 (zeroCollab.sinF (FLOAT_DEG_TO_RAD (F.fin 0))))
                (FLOAT_TO_Q31 (zeroCollab.cosF (FLOAT_DEG_TO_RAD (F.fin 0))))).1)
            (Q31_TO_FLOAT (zeroCollab.armPark (FLOAT_TO_Q31 (F.fin 0))
                (FLOAT_TO_Q31 (F.fin 0))
                (FLOAT_TO_Q31 (zeroCollab.sinF (FLOAT_DEG_TO_RAD (F.fin 0))))
                (FLOAT_TO_Q31 (zeroCollab.cosF (FLOAT_DEG_TO_RAD (F.fin 0))))).2))],
         []) :=
  C7_park_gain.1 zeroCollab initState "0" "0" "0" 0 0 0 [] atof_zero
    (by norm_num) (by norm_num) atof_zero (by norm_num) (by norm_num)
    atof_zero (by norm_num) (by norm_num)

lemma atof_57 : atof "57" = F.fin 57 := by
  simp [atof, skipSpaces, atofMag, scanIntPart, dv5, dv7]
  norm_num

/-- C8: for every in-range arc-tangent input v, the handler sets the
numerator global to v * 127.99 and the denominator global to 127.99 before
converting both to the 8Q23 format, passes the converted denominator and
numerator to the accelerator arc tangent, converts the hardware result from
its Q31 radian encoding to degrees (Q31_TO_DEG_FLOAT then
FLOAT_RAD_TO_DEG) before printing it, and prints as software reference
atan2 of the same scaled numerator and denominator converted radian to
degree. -/
theorem C8_arctan_scaling (c : Collab) (st : CState) (tok : String) (v : ℚ)
    (rest : List String) (hv : atof tok = F.fin v) (h1 : -57 ≤ v) (h2 : v ≤ 57) :
    arc_tangent c st (tok :: rest)
      = ({ st with
            read_status := 1, read_string := tok,
            numerator := F.fin (v * ATAN_TANH_IN_SCALING),
            denominator := F.fin ATAN_TANH_IN_SCALING,
            numerator_8q23 := FLOAT_TO_Q8_23 (F.fin (v * ATAN_TANH_IN_SCALING)),
            denominator_8q23 := FLOAT_TO_Q8_23 (F.fin ATAN_TANH_IN_SCALING),
            result_q31 := c.hwArcTan (FLOAT_TO_Q8_23 (F.fin ATAN_TANH_IN_SCALING))
              (FLOAT_TO_Q8_23 (F.fin (v * ATAN_TANH_IN_SCALING))),
            result_doub := FLOAT_RAD_TO_DEG (c.atan2F
              (F.fin (v * ATAN_TANH_IN_SCALING)) (F.fin ATAN_TANH_IN_SCALING)) },
         [Event.out (Msg.selected "arc tangent"),
          Event.out (Msg.promptFor "value between -57 and 57"),
          Event.hw (Hw.arcTanQ (FLOAT_TO_Q8_23 (F.fin ATAN_TANH_IN_SCALING))
            (FLOAT_TO_Q8_23 (F.fin (v * ATAN_TANH_IN_SCALING)))),
          Event.out (Msg.resultOut "arctan cordic degree"
            (FLOAT_RAD_TO_DEG (Q31_TO_DEG_FLOAT
              (c.hwArcTan (FLOAT_TO_Q8_23 (F.fin ATAN_TANH_IN_SCALING))
                (FLOAT_TO_Q8_23 (F.fin (v * ATAN_TANH_IN_SCALING))))))),
          Event.out (Msg.resultOut "arctan math degree"
            (FLOAT_RAD_TO_DEG (c.atan2F (F.fin (v * ATAN_TANH_IN_SCALING))
              (F.fin ATAN_TANH_IN_SCALING))))],
         rest) := by
  have hc := check_range_in (-57) 57 v h1 h2
  simp only [arc_tangent, scanfTok, hv, hc]
  simp [fmul]

lemma fgt_nan (x : F) : fgt x F.nan = false := by cases x <;> rfl

lemma flt_nan (x : F) : flt x F.nan = false := by cases x <;> rfl

lemma check_range_nan (low high : F) :
    check_range low high F.nan = (CyStatus.success, []) := by
  simp [check_range, fgt_nan, flt_nan]

/-- C9: a NaN value makes both comparisons inside check_range false, so
check_range returns the success status for every pair of limits, and each
of the ten operation handlers given NaN operands (token nan) proceeds past
validation to its fixed-point conversions and hardware call. -/
theorem C9_nan_accepted :
    (∀ low high : F, (check_range low high F.nan).1 = CyStatus.success)
    ∧ (∀ (c : Collab) (st : CState),
        hasHwCall (park_transform c st ["nan", "nan", "nan"]).2.1 = true
        ∧ hasHwCall (sine c st ["nan"]).2.1 = true
        ∧ hasHwCall (cosine c st ["nan"]).2.1 = true
        ∧ hasHwCall (tangent c st ["nan"]).2.1 = true
        ∧ hasHwCall (arc_tangent c st ["nan"]).2.1 = true
        ∧ hasHwCall (hyperbolic_sine c st ["nan"]).2.1 = true
        ∧ hasHwCall (hyperbolic_cosine c st ["nan"]).2.1 = true
        ∧ hasHwCall (hyperbolic_tangent c st ["nan"]).2.1 = true
        ∧ hasHwCall (hyperbolic_arc_tangent c st ["nan"]).2.1 = true
        ∧ hasHwCall (square_root c st ["nan"]).2.1 = true) := by
  constructor
  · intro low high
    rw [check_range_nan]
  · intro c st
    have hne : fne (F.fin 0) F.nan = true := rfl
    refine ⟨?_, ?_, ?_, ?_, ?_, ?_, ?_, ?_, ?_, ?_⟩
    · simp only [park_transform, scanfTok, atof_nan, check_range_nan]
      simp [hasHwCall, isHwEvent]
    · simp only [sine, scanfTok, atof_nan, check_range_nan]
      simp [hasHwCall, isHwEvent]
    · simp only [cosine, scanfTok, atof_nan, check_range_nan]
      simp [hasHwCall, isHwEvent]
    · simp only [tangent, scanfTok, atof_nan, check_range_nan]
      simp [hasHwCall, isHwEvent]
    · simp only [arc_tangent, scanfTok, atof_nan, check_range_nan]
      simp [hasHwCall, isHwEvent]
    · simp only [hyperbolic_sine, scanfTok, atof_nan, check_range_nan]
      simp [hasHwCall, isHwEvent]
    · simp only [hyperbolic_cosine, scanfTok, atof_nan, check_range_nan]
      simp [hasHwCall, isHwEvent]
    · simp only [hyperbolic_tangent, scanfTok, atof_nan, check_range_nan]
      simp [hasHwCall, isHwEvent]
    · simp only [hyperbolic_arc_tangent, scanfTok, atof_nan, check_range_nan]
      simp [hasHwCall, isHwEvent]
    · simp only [square_root, scanfTok, atof_nan, check_range_nan, hne]
      simp [hasHwCall, isHwEvent, feq]

/-- Whether the first character of a token, after scanf-style whitespace and
an optional single sign character, is not a decimal digit, so that atoi
finds no digits to convert. -/
def noParsedDigits (s : String) : Bool :=
  match skipSpaces s.data with
  | [] => true
  | c :: cs =>
      if c = '-' ∨ c = '+' then
        match cs with
        | [] => true
        | d :: _ => !d.isDigit
      else !c.isDigit

lemma scanDigitsInt_nodigit (cs : List Char)
    (h : (match cs with | [] => true | d :: _ => !d.isDigit) = true) :
    scanDigitsInt cs 0 = 0 := by
  cases cs with
  | nil => rfl
  | cons d tl =>
      simp at h
      simp [scanDigitsInt, h]

lemma atoi_noParsedDigits (s : String) (h : noParsedDigits s = true) :
    atoi s = 0 := by
  unfold noParsedDigits at h
  unfold atoi
  cases hsk : skipSpaces s.data with
  | nil => rfl
  | cons c cs =>
      rw [hsk] at h
      simp only at h ⊢
      by_cases hm : c = '-'
      · rw [if_pos (Or.inl hm)] at h
        rw [if_pos hm]
        rw [scanDigitsInt_nodigit cs h]
        rfl
      · by_cases hp : c = '+'
        · rw [if_pos (Or.inr hp)] at h
          rw [if_neg hm, if_pos hp]
          exact scanDigitsInt_nodigit cs h
        · rw [if_neg (by simp [hm, hp])] at h
          rw [if_neg hm, if_neg hp]
          apply scanDigitsInt_nodigit
          simp at h
          simp [h]

/-- C10 amended: a menu token in which atoi finds no digits to parse (its
first character after whitespace and an optional single sign is not a
digit, e.g. abc) converts to 0, so the dispatch loop invokes the
park-transform handler for every such token. -/
theorem C10_nonnumeric_amended (c : Collab) (st : CState) (tok : String)
    (rest : List String) (h : noParsedDigits tok = true) :
    atoi tok = 0
    ∧ loop_iter c st (tok :: rest)
        = ((park_transform c { st with read_status := 1, read_string := tok, cordic_function := 0 } rest).1,
           Event.out Msg.menu ::
             ((park_transform c { st with read_status := 1, read_string := tok, cordic_function := 0 } rest).2.1
               ++ [Event.out Msg.blankLines]),
           (park_transform c { st with read_status := 1, read_string := tok, cordic_function := 0 } rest).2.2) := by
  have h0 := atoi_noParsedDigits tok h
  refine ⟨h0, ?_⟩
  simp only [loop_iter, h0, dispatch, if_pos]

/-- C10 counterexample: the token +5 has no leading digit (its first
character is the sign, not a digit), yet atoi parses it to 5 and the
dispatch loop invokes the hyperbolic-sine handler, not the park-transform
handler, so the claim quantified over every token without leading digits is
false. -/
theorem C10_nonnumeric_cex :
    atoi "+5" = 5
    ∧ noParsedDigits "+5" = false
    ∧ ('+'.isDigit = false)
    ∧ (loop_iter zeroCollab initState ["+5"]).2.1
        = [Event.out Msg.menu,
           Event.out (Msg.selected "hyperbolic sine"),
           Event.out (Msg.promptFor "angle in degree between -60 and 60"),
           Event.out Msg.blankLines] := by
  refine ⟨atoi_plus5, by decide, by decide, ?_⟩
  simp only [loop_iter, atoi_plus5, dispatch]
  norm_num
  simp [hyperbolic_sine, scanfTok]

/-- C8 witness: instantiation of the arc-tangent scaling trace at the
domain edge v = 57 under the degenerate collaborators. -/
theorem C8_arctan_scaling_witness :
    arc_tangent zeroCollab initState ["57"]
      = ({ initState with
            read_status := 1, read_string := "57",
            numerator := F.fin (57 * ATAN_TANH_IN_SCALING),
            denominator := F.fin ATAN_TANH_IN_SCALING,
            numerator_8q23 := FLOAT_TO_Q8_23 (F.fin (57 * ATAN_TANH_IN_SCALING)),
            denominator_8q23 := FLOAT_TO_Q8_23 (F.fin ATAN_TANH_IN_SCALING),
            result_q31 := zeroCollab.hwArcTan
              (FLOAT_TO_Q8_23 (F.fin ATAN_TANH_IN_SCALING))
              (FLOAT_TO_Q8_23 (F.fin (57 * ATAN_TANH_IN_SCALING))),
            result_doub := FLOAT_RAD_TO_DEG (zeroCollab.atan2F
              (F.fin (57 * ATAN_TANH_IN_SCALING)) (F.fin ATAN_TANH_IN_SCALING)) },
         [Event.out (Msg.selected "arc tangent"),
          Event.out (Msg.promptFor "value between -57 and 57"),
          Event.hw (Hw.arcTanQ (FLOAT_TO_Q8_23 (F.fin ATAN_TANH_IN_SCALING))
            (FLOAT_TO_Q8_23 (F.fin (57 * ATAN_TANH_IN_SCALING)))),
          Event.out (Msg.resultOut "arctan cordic degree"
            (FLOAT_RAD_TO_DEG (Q31_TO_DEG_FLOAT
              (zeroCollab.hwArcTan (FLOAT_TO_Q8_23 (F.fin ATAN_TANH_IN_SCALING))
                (FLOAT_TO_Q8_23 (F.fin (57 * ATAN_TANH_IN_SCALING))))))),
          Event.out (Msg.resultOut "arctan math degree"
            (FLOAT_RAD_TO_DEG (zeroCollab.atan2F
              (F.fin (57 * ATAN_TANH_IN_SCALING)) (F.fin ATAN_TANH_IN_SCALING))))],
         []) :=
  C8_arctan_scaling zeroCollab initState "57" 57 [] atof_57
    (by norm_num) (by norm_num)

/-- C10 witness: the all-letter token abc parses to 0 and dispatches the
park-transform handler. -/
theorem C10_nonnumeric_amended_witness :
    atoi "abc" = 0
    ∧ loop_iter zeroCollab initState ["abc"]
        = ((park_transform zeroCollab { initState with read_status := 1, read_string := "abc", cordic_function := 0 } []).1,
           Event.out Msg.menu ::
             ((park_transform zeroCollab { initState with read_status := 1, read_string := "abc", cordic_function := 0 } []).2.1
               ++ [Event.out Msg.blankLines]),
           (park_transform zeroCollab { initState with read_status := 1, read_string := "abc", cordic_function := 0 } []).2.2) :=
  C10_nonnumeric_amended zeroCollab initState "abc" [] (by decide)
